import Mathlib

/-!
Shallow embedding of the reconciliation logic of the ZooKeeper K8s charm
(`src/charm.py`).  The charm's event handlers are modelled as pure functions
from an explicit state record to a new state record together with a trace of
emitted effects.  Collaborator responses (workload health, config
materialization, status projections of the cluster, ...) are fields of the
state record: they are read, never written, by the handlers, which models a
reconciliation cycle with no intervening external state change.

Definitions carry the names of the source functions they embed.  Code of the
repository that lives outside `src/` (core/cluster.py, managers/*.py,
core/stubs.py) is modelled from the spec where a claim depends on it; each
such definition is marked `Modelled from the spec:` in its doc comment.
-/

/-- Statuses used by charm.py (from core.stubs Status).  Modelled from the
spec, section 4.3: a small discrete status enum; exactly one status, ACTIVE,
projects to an active-equivalent operator status. -/
inductive Status where
  | containerNotConnected
  | noPeerRelation
  | noPasswords
  | notAllRelated
  | notUnitTurn
  | serviceNotRunning
  | serviceUnhealthy
  | serviceUnavailable
  | notAllQuorum
  | active
deriving DecidableEq

/-- Modelled from the spec, section 4.3: only ACTIVE projects to an
active-equivalent status (the `isinstance(self.unit.status, ActiveStatus)`
checks in charm.py). -/
def isActiveStatus : Status → Bool
  | Status.active => true
  | _ => false

/-- Subject-alternative names of a certificate (managers.tls Sans). -/
structure Sans where
  sansIp : List String
  sansDns : List String
deriving DecidableEq

/-- Equality of the two python `set(...)` values built from lists: the
symmetric difference `set(a) ^ set(b)` is empty iff each element of one list
occurs in the other. -/
def sameSet (a b : List String) : Bool :=
  a.all (fun x => b.contains x) && b.all (fun x => a.contains x)

/-- Per-node data of one unit (`state.unit_server` and peers): the
node-writable entries `state/started`, `unified`, `quorum`,
`password-rotated` and the certificate references. -/
structure ServerInfo where
  unitId : Nat
  started : Bool
  unified : Bool
  quorum : String
  passwordRotated : Bool
  certificate : String
  caCert : String
deriving DecidableEq

/-- Cluster-wide, leader-writable data (`state.cluster`).  `membership` maps
a unit id to its membership value (the `"added"` entries). -/
structure ClusterData where
  hasInternalCredentials : Bool
  quorum : String
  switchingEncryption : Bool
  rotatePasswords : Bool
  tls : Bool
  restoreInProgress : Bool
  membership : List (Nat × String)
deriving DecidableEq

/-- The relation databag of one downstream client, written by
`update_client_data` / `disconnect_clients`. -/
structure ClientBag where
  endpoints : String
  tls : String
  username : String
  password : String
  database : String
  chroot : String
  uris : String
deriving DecidableEq

/-- One registered downstream consumer (`state.clients` element): the values
the leader would advertise, the previously-issued password, whether the
client exposes a component, and its current databag. -/
structure ClientApp where
  password : String
  hasComponent : Bool
  endpoints : String
  tls : String
  username : String
  database : String
  chroot : String
  uris : String
  bag : ClientBag
deriving DecidableEq

/-- Python's substring test `needle in hay`. -/
def strContains (hay needle : String) : Bool :=
  hay.toList.tails.any (fun t => needle.toList.isPrefixOf t)

/-- The `expose-external` config option (core.stubs ExposeExternal). -/
inductive ExposeExternal where
  | off
  | nodePort
  | loadBalancer
deriving DecidableEq

/-- The facts charm.py reads off the triggering event: its type
(RelationDepartedEvent / LeaderElectedEvent) and whether
`getattr(event, "departing_unit", None) == self.unit`. -/
structure Event where
  isRelationDeparted : Bool
  isLeaderElected : Bool
  departingIsSelf : Bool
deriving DecidableEq

/-- Effects emitted by the handlers, in program order. -/
inductive Act where
  | deferEvent
  | setStatus (s : Status)
  | emitCertRenewal
  | acquireRestartLock
  | startWorkload
  | restartWorkload
  | sleepSeconds (n : Nat)
  | setWorkloadVersion
  | removeExternalService
  | applyNodePortService
  | applyLoadBalancerService
  | writeMembership
  | configWrite
  | materializeTls
  | updateServerFlags
deriving DecidableEq

/-- The whole state a reconciliation cycle sees: the mutable shared data
(cluster, this unit's server data, peers' server data, clients, unit status)
plus the collaborator responses charm.py reads (fields below `isLeader`),
which are inputs only and are never written by the handlers. -/
structure CharmState where
  cluster : ClusterData
  unitServer : ServerInfo
  otherServers : List ServerInfo
  clients : List ClientApp
  status : Status
  isLeader : Bool
  containerCanConnect : Bool
  hasPeerRelation : Bool
  upgradeIdle : Bool
  endpointsKnown : Bool
  allUnitsRelated : Bool
  configChanged : Bool
  workloadAlive : Bool
  workloadHealthy : Bool
  healthyState : Bool
  stableStatus : Status
  readyStatus : Status
  currentJaas : String
  certSans : Sans
  expectedSans : Sans
  planChanged : Bool
  exposeExternal : ExposeExternal
  nextServer : Option (Option String)
  unitComponent : Option String
  initLeader : Option (Nat × Bool)
deriving DecidableEq

/-- `state.servers`: all known units, this one included. -/
def servers (S : CharmState) : List ServerInfo :=
  S.unitServer :: S.otherServers

/-- `self._set_status(key)` (charm.py 572-578): records the status on the
unit. -/
def setStatusS (k : Status) (S : CharmState) : CharmState :=
  { S with status := k }

/-- One key update of a key/value mapping, as `state.cluster.update({k: v})`
behaves for a single key: a no-op when the key already holds the value,
otherwise replace or append. -/
def setKey (m : List (Nat × String)) (k : Nat) (v : String) : List (Nat × String) :=
  if m.lookup k = some v then m
  else if m.any (fun p => p.1 == k) then
    m.map (fun p => if p.1 == k then (k, v) else p)
  else m ++ [(k, v)]

/-- Modelled from the spec, section 4.1.2 step 2 (core.cluster
`stale_quorum`, absent from src/): membership is stale relative to started
nodes when some started node is not yet marked "added". -/
def stale_quorum (S : CharmState) : Bool :=
  (servers S).any (fun sv => sv.started && !(S.cluster.membership.lookup sv.unitId = some "added"))

/-- Modelled from the spec, section 4.1.2 step 4 (core.cluster
`all_units_unified`, absent from src/): every known node reports
unifiedFlag true. -/
def all_units_unified (S : CharmState) : Bool :=
  (servers S).all (fun sv => sv.unified)

/-- Modelled from the spec, section 4.1.2 step 4 (core.cluster
`all_units_quorum`, absent from src/): every node's reported quorumMode
equals the cluster-wide quorumMode. -/
def all_units_quorum (S : CharmState) : Bool :=
  (servers S).all (fun sv => sv.quorum == S.cluster.quorum)

/-- Modelled from the spec, sections 2 and 4.1.2 (managers.quorum
QuorumManager.update_cluster, absent from src/): the Quorum Membership
Resolver computes the next membership mapping, marking every started node
"added" (section 3: membership entries are monotonic). -/
def update_cluster (S : CharmState) : List (Nat × String) :=
  (servers S).foldl
    (fun m sv => if sv.started then setKey m sv.unitId "added" else m)
    S.cluster.membership

/-- Modelled from the spec, sections 6 and 8 (managers.tls
TLSManager.get_current_sans, absent from src/): `currentSANs()` is absent
while the stored certificate reference is cleared, otherwise it reports the
names of the materialized certificate. -/
def get_current_sans (S : CharmState) : Option Sans :=
  if S.unitServer.certificate = "" then none else some S.certSans

/-- The SAN comparison of charm.py 265-273: both the current and the
expected sets are computed only `if current_sans`, else they are empty; the
check fires when either the ip or the dns symmetric difference is
non-empty. -/
def sansMismatch (S : CharmState) : Bool :=
  match get_current_sans S with
  | none => false
  | some cur =>
      !(sameSet cur.sansIp S.expectedSans.sansIp
        && sameSet cur.sansDns S.expectedSans.sansDns)

/-- `update_external_services` (charm.py 182-201).  SUBSTRATE is "k8s" for
this charm, so only the leader check gates the body. -/
def update_external_services (S : CharmState) : CharmState × List Act :=
  if !S.isLeader then (S, [])
  else
    match S.exposeExternal with
    | ExposeExternal.off => (S, [Act.removeExternalService])
    | ExposeExternal.nodePort =>
        (setStatusS Status.serviceUnavailable S,
         [Act.setStatus Status.serviceUnavailable, Act.applyNodePortService])
    | ExposeExternal.loadBalancer =>
        (setStatusS Status.serviceUnavailable S,
         [Act.setStatus Status.serviceUnavailable, Act.applyLoadBalancerService])

/-- The startup-order guard of `init_server` (charm.py 417-424): blocked
only when the next server exists, it exposes a component, this unit exposes
a component, and the two component names differ. -/
def turnBlocked (S : CharmState) : Bool :=
  match S.nextServer, S.unitComponent with
  | some (some n), some u => n != u
  | _, _ => false

/-- `init_server` (charm.py 399-469): precondition checks, config and tls
materialization, workload start, and the unit flagging itself started. -/
def init_server (S : CharmState) : CharmState × List Act :=
  if !S.cluster.hasInternalCredentials then
    (setStatusS Status.noPasswords S, [Act.setStatus Status.noPasswords])
  else if !S.allUnitsRelated then
    (setStatusS Status.notAllRelated S, [Act.setStatus Status.notAllRelated])
  else if turnBlocked S then
    (setStatusS Status.notUnitTurn S, [Act.setStatus Status.notUnitTurn])
  else
    ({ S with unitServer := { S.unitServer with
          started := true,
          unified := S.cluster.switchingEncryption,
          quorum := S.cluster.quorum } },
     [Act.configWrite]
       ++ (if S.cluster.tls && !(S.unitServer.certificate = "")
              && !(S.unitServer.caCert = "") then [Act.materializeTls] else [])
       ++ [Act.startWorkload, Act.setWorkloadVersion])

/-- charm.py 249-250: `init_server` is attempted only when this unit has not
yet started. -/
def initStage (S : CharmState) : CharmState × List Act :=
  if S.unitServer.started then (S, []) else init_server S

/-- The per-client skip test of `update_client_data` (charm.py 543-548):
password unset, or not contained in the joined jaas file content. -/
def clientSkip (jaas : String) (c : ClientApp) : Bool :=
  c.password == "" || !(strContains jaas c.password)

/-- The databag write of `update_client_data` (charm.py 559-570). -/
def publishClient (c : ClientApp) : ClientApp :=
  { c with bag :=
      { endpoints := c.endpoints, tls := c.tls, username := c.username,
        password := c.password, database := c.database, chroot := c.chroot,
        uris := c.uris } }

/-- `update_client_data` (charm.py 533-570): leader-only; set status from
`state.ready` and stop unless active; publish to every client that passes
the skip test. -/
def update_client_data (S : CharmState) : CharmState × List Act :=
  if !S.isLeader then (S, [])
  else
    let S1 := setStatusS S.readyStatus S
    if !isActiveStatus S.readyStatus then (S1, [Act.setStatus S.readyStatus])
    else
      ({ S1 with clients := (S1.clients.map
            (fun c => if clientSkip S.currentJaas c then c else publishClient c)) },
       [Act.setStatus S.readyStatus])

/-- `disconnect_clients` (charm.py 525-531): the leader clears the
`endpoints` entry of every client databag. -/
def disconnect_clients (S : CharmState) : CharmState :=
  if !S.isLeader then S
  else { S with clients := (S.clients.map
          (fun c => { c with bag := { c.bag with endpoints := "" } })) }

/-- charm.py 482-483: set a started init-leader unit to "added" as soon as
possible; otherwise membership is left as it is. -/
def initLeaderWrite (S : CharmState) : CharmState :=
  { S with cluster := { S.cluster with membership :=
      match S.initLeader with
      | some (uid, true) => setKey S.cluster.membership uid "added"
      | _ => S.cluster.membership } }

/-- charm.py 485-492: membership is recomputed when it is stale (scale-up),
on relation-departed or leader-elected events, or when the cluster is
healthy. -/
def recomputeCond (S : CharmState) (e : Event) : Bool :=
  stale_quorum S || e.isRelationDeparted || e.isLeaderElected || S.healthyState

/-- charm.py 493-497: write the recomputed membership back to cluster
state. -/
def membershipWrite (S : CharmState) : CharmState :=
  { S with cluster := { S.cluster with membership := update_cluster S } }

/-- charm.py 509-514: the quorum mode the leader advances to: "ssl" when
tls is enabled cluster-wide, "non-ssl" otherwise. -/
def encryptionTarget (S : CharmState) : String :=
  if S.cluster.tls then "ssl" else "non-ssl"

/-- charm.py 509-514: the cluster-wide quorum write to the target mode. -/
def quorumTargetWrite (S : CharmState) : CharmState :=
  { S with cluster := { S.cluster with quorum := encryptionTarget S } }

/-- charm.py 505-521: once all units are unified, advance the cluster-wide
quorum to the target dictated by tls; once additionally all units report the
target quorum, clear switching-encryption. -/
def encryptionStep (S : CharmState) : CharmState :=
  if all_units_unified S then
    if all_units_quorum (quorumTargetWrite S) then
      { quorumTargetWrite S with cluster :=
          { (quorumTargetWrite S).cluster with switchingEncryption := false } }
    else quorumTargetWrite S
  else S

/-- charm.py 479-497 as one state transformation: the init-leader write
followed, when the recompute condition holds, by the membership write. -/
def quorumSyncState (S : CharmState) (e : Event) : CharmState :=
  if recomputeCond (initLeaderWrite S) e then membershipWrite (initLeaderWrite S)
  else initLeaderWrite S

/-- The trace of charm.py 479-497: a membership write exactly when the
recompute condition holds. -/
def quorumSyncTrace (S : CharmState) (e : Event) : List Act :=
  if recomputeCond (initLeaderWrite S) e then [Act.writeMembership] else []

/-- `update_quorum` (charm.py 471-523): leader-only and skipped for the
departing leader; sync membership; re-derive stability and stop unless
active; advance encryption state; republish client data. -/
def update_quorum (S : CharmState) (e : Event) : CharmState × List Act :=
  if !S.isLeader || e.departingIsSelf then (S, [])
  else if !isActiveStatus S.stableStatus then
    (setStatusS S.stableStatus (quorumSyncState S e),
     quorumSyncTrace S e ++ [Act.setStatus S.stableStatus])
  else
    ((update_client_data (encryptionStep (setStatusS S.stableStatus (quorumSyncState S e)))).1,
     quorumSyncTrace S e ++ [Act.setStatus S.stableStatus]
       ++ (update_client_data (encryptionStep
            (setStatusS S.stableStatus (quorumSyncState S e)))).2)

/-- The tail of `_on_cluster_relation_changed` after `update_quorum`
(charm.py 298-326): departing-unit early return, restart-lock emission,
single-unit deferral during encryption switching, liveness and health
checks, final active status. -/
def afterQuorum (S3 : CharmState) (e : Event) : CharmState × List Act :=
  if e.departingIsSelf then (S3, [])
  else
    let t4 := if (S3.configChanged || S3.cluster.switchingEncryption)
        && S3.unitServer.started && S3.upgradeIdle
      then [Act.acquireRestartLock] else []
    let t5 := if S3.cluster.switchingEncryption && S3.otherServers.isEmpty
      then [Act.deferEvent] else []
    if !S3.workloadAlive then
      (setStatusS Status.serviceNotRunning S3,
       t4 ++ t5 ++ [Act.setStatus Status.serviceNotRunning])
    else if S3.unitServer.started && !S3.workloadHealthy then
      (setStatusS Status.serviceUnhealthy S3,
       t4 ++ t5 ++ [Act.setStatus Status.serviceUnhealthy])
    else
      (setStatusS Status.active S3,
       t4 ++ t5 ++ [Act.setWorkloadVersion, Act.setStatus Status.active])

/-- `_on_cluster_relation_changed` (charm.py 224-326): the generic
reconciliation handler for all relation, config, leadership and
update-status events. -/
def on_cluster_relation_changed (S : CharmState) (e : Event) : CharmState × List Act :=
  if !S.containerCanConnect then
    (setStatusS Status.containerNotConnected S,
     [Act.setStatus Status.containerNotConnected, Act.deferEvent])
  else if !S.hasPeerRelation then
    (setStatusS Status.noPeerRelation S, [Act.setStatus Status.noPeerRelation])
  else if S.cluster.restoreInProgress then (S, [])
  else if !S.upgradeIdle then (S, [Act.deferEvent])
  else
    let P1 := initStage S
    let P2 := update_external_services P1.1
    let t12 := P1.2 ++ P2.2
    if !P2.1.endpointsKnown then
      (disconnect_clients P2.1, t12 ++ [Act.deferEvent])
    else if sansMismatch P2.1 then
      ({ P2.1 with unitServer := { P2.1.unitServer with certificate := "" } },
       t12 ++ [Act.emitCertRenewal])
    else
      let P3 := update_quorum P2.1 e
      let P4 := afterQuorum P3.1 e
      (P4.1, t12 ++ P3.2 ++ P4.2)

/-- `_restart` (charm.py 368-395): the rolling-ops restart callback.  The
status is re-derived from `state.stable`; unless active the event is
deferred.  Otherwise the workload is started (plan changed) or restarted,
the process sleeps five seconds to let the server rejoin quorum, and only
then are the per-unit `unified`, `quorum` and `password-rotated` flags
updated. -/
def restart_callback (S : CharmState) : CharmState × List Act :=
  let S0 := setStatusS S.stableStatus S
  if !isActiveStatus S.stableStatus then
    (S0, [Act.setStatus S.stableStatus, Act.deferEvent])
  else
    ({ S0 with unitServer := { S0.unitServer with
          unified := S.cluster.switchingEncryption,
          quorum := S.cluster.quorum,
          passwordRotated := S.cluster.rotatePasswords } },
     [Act.setStatus S.stableStatus,
      (if S.planChanged then Act.startWorkload else Act.restartWorkload),
      Act.sleepSeconds 5, Act.updateServerFlags])

/-- An action that runs or restarts the workload process. -/
def isRestartWork (a : Act) : Bool :=
  a == Act.startWorkload || a == Act.restartWorkload

/-- A concrete single-unit base state used by the witnesses below: peer
relation up, container connected, credentials created, no tls, no
migration, healthy workload. -/
def baseState : CharmState :=
  { cluster := { hasInternalCredentials := true, quorum := "non-ssl",
                 switchingEncryption := false, rotatePasswords := false,
                 tls := false, restoreInProgress := false, membership := [] },
    unitServer := { unitId := 0, started := false, unified := false,
                    quorum := "non-ssl", passwordRotated := false,
                    certificate := "", caCert := "" },
    otherServers := [], clients := [], status := Status.noPeerRelation,
    isLeader := false, containerCanConnect := true, hasPeerRelation := true,
    upgradeIdle := true, endpointsKnown := true, allUnitsRelated := true,
    configChanged := false, workloadAlive := true, workloadHealthy := true,
    healthyState := false, stableStatus := Status.active,
    readyStatus := Status.active, currentJaas := "",
    certSans := { sansIp := [], sansDns := [] },
    expectedSans := { sansIp := [], sansDns := [] },
    planChanged := false, exposeExternal := ExposeExternal.off,
    nextServer := none, unitComponent := none, initLeader := none }

/-- Concrete state refuting C3: the next server to start exists but its
component is not yet visible, and this unit (ordinal 1) is not it; yet
`init_server` proceeds and starts the workload. -/
def c3state : CharmState :=
  { baseState with
    unitServer := { baseState.unitServer with unitId := 1 },
    nextServer := some none,
    unitComponent := some "zookeeper-k8s/1" }

/-- Concrete state refuting C7: a unit with a materialized certificate
whose SANs no longer match expectations.  The first reconcile run clears
the certificate and returns early; the second run proceeds to the end. -/
def c7state : CharmState :=
  { baseState with
    unitServer := { baseState.unitServer with started := true, certificate := "cert" },
    certSans := { sansIp := ["10.0.0.1"], sansDns := [] },
    expectedSans := { sansIp := ["10.0.0.2"], sansDns := [] } }

/-- An event that is none of departed/leader-elected and not this unit's
departure. -/
def plainEvent : Event :=
  { isRelationDeparted := false, isLeaderElected := false,
    departingIsSelf := false }

/-- A relation-departed event for some other unit. -/
def departedEvent : Event :=
  { isRelationDeparted := true, isLeaderElected := false,
    departingIsSelf := false }

/-- Witness state for C1: leader of a single-unit cluster mid encryption
migration, tls enabled, the unit unified and already on the "ssl" quorum. -/
def w1state : CharmState :=
  { baseState with
    isLeader := true,
    cluster := { baseState.cluster with switchingEncryption := true, tls := true, quorum := "ssl" },
    unitServer := { baseState.unitServer with started := true, unified := true, quorum := "ssl" } }

/-- Witness state for C4/C9: stable cluster, restart proceeds. -/
def w4state : CharmState :=
  { baseState with unitServer := { baseState.unitServer with started := true } }

/-- Witness state for C5: a started unit with a pending config change. -/
def w5state : CharmState :=
  { baseState with
    configChanged := true,
    unitServer := { baseState.unitServer with started := true } }

/-- Witness state for C8: leader with one publishable client and one client
whose password is not yet in the jaas file. -/
def w8state : CharmState :=
  { baseState with
    isLeader := true,
    currentJaas := "user=pw1;",
    clients :=
      [ { password := "pw1", hasComponent := true, endpoints := "e1",
          tls := "disabled", username := "u1", database := "/d1",
          chroot := "/d1", uris := "e1/d1",
          bag := { endpoints := "", tls := "", username := "", password := "",
                   database := "", chroot := "", uris := "" } },
        { password := "pw2", hasComponent := true, endpoints := "e2",
          tls := "disabled", username := "u2", database := "/d2",
          chroot := "/d2", uris := "e2/d2",
          bag := { endpoints := "", tls := "", username := "", password := "",
                   database := "", chroot := "", uris := "" } } ] }

/-- Witness state for C10: the next server and this unit both expose equal
component names, so it is this unit's turn. -/
def w10state : CharmState :=
  { baseState with
    nextServer := some (some "zookeeper-k8s/0"),
    unitComponent := some "zookeeper-k8s/0" }

/-- Witness state for the amended C3: the next server to start is unit 0 and
this unit is unit 1, both components visible, so the guard blocks. -/
def w3state : CharmState :=
  { baseState with
    nextServer := some (some "zookeeper-k8s/0"),
    unitComponent := some "zookeeper-k8s/1" }

/-- Witness state for C6/C2: a leader state used to exercise the leader
branch of update_quorum. -/
def w6state : CharmState :=
  { baseState with
    isLeader := true,
    unitServer := { baseState.unitServer with started := true } }

/-! ### Helper lemmas -/

lemma isRestartWork_setStatus (s : Status) : isRestartWork (Act.setStatus s) = false := rfl

lemma setStatusS_status (k : Status) (S : CharmState) : (setStatusS k S).status = k := rfl

lemma restart_trace_pos (S : CharmState) (h : isActiveStatus S.stableStatus = true) :
    (restart_callback S).2 = [Act.setStatus S.stableStatus,
      (if S.planChanged then Act.startWorkload else Act.restartWorkload),
      Act.sleepSeconds 5, Act.updateServerFlags] := by
  simp [restart_callback, h]

lemma restart_trace_neg (S : CharmState) (h : isActiveStatus S.stableStatus = false) :
    (restart_callback S).2 = [Act.setStatus S.stableStatus, Act.deferEvent] := by
  simp [restart_callback, h]

/-! ### C4: restart is followed by a settling delay before returning, and
per-node flags are updated only after that delay -/

/-- C4: in the rolling-restart callback, any action that starts or restarts
the workload is followed, later in the callback's trace (hence before the
callback returns and the restart lock is released), by the five-second
settling sleep; and the per-node flag update occurs only after such a
sleep. -/
theorem c4_restart_settling_delay (S : CharmState) :
    (∀ i, ∀ hi : i < (restart_callback S).2.length,
        isRestartWork ((restart_callback S).2.get ⟨i, hi⟩) = true →
        ∃ j, ∃ hj : j < (restart_callback S).2.length,
          i < j ∧ (restart_callback S).2.get ⟨j, hj⟩ = Act.sleepSeconds 5)
    ∧ (∀ k, ∀ hk : k < (restart_callback S).2.length,
        (restart_callback S).2.get ⟨k, hk⟩ = Act.updateServerFlags →
        ∃ j, ∃ hj : j < (restart_callback S).2.length,
          j < k ∧ (restart_callback S).2.get ⟨j, hj⟩ = Act.sleepSeconds 5) := by
  cases hb : isActiveStatus S.stableStatus
  · rw [restart_trace_neg S hb]
    constructor
    · intro i hi hw
      simp only [List.length_cons, List.length_nil] at hi
      interval_cases i
      · exact Bool.noConfusion hw
      · exact Bool.noConfusion hw
    · intro k hk hu
      simp only [List.length_cons, List.length_nil] at hk
      interval_cases k
      · exact Act.noConfusion hu
      · exact Act.noConfusion hu
  · rw [restart_trace_pos S hb]
    constructor
    · intro i hi hw
      simp only [List.length_cons, List.length_nil] at hi
      interval_cases i
      · exact Bool.noConfusion hw
      · exact ⟨2, by simp, by omega, rfl⟩
      · exact Bool.noConfusion hw
      · exact Bool.noConfusion hw
    · intro k hk hu
      simp only [List.length_cons, List.length_nil] at hk
      interval_cases k
      · exact Act.noConfusion hu
      · have hu' : (if S.planChanged then Act.startWorkload
            else Act.restartWorkload) = Act.updateServerFlags := hu
        exfalso
        revert hu'
        cases S.planChanged <;> simp
      · exact Act.noConfusion hu
      · exact ⟨2, by simp, by omega, rfl⟩

/-- Witness for C4 at a concrete stable state: the workload-restarting
action at index 1 is followed by the settling sleep. -/
theorem c4_witness :
    isRestartWork ((restart_callback w4state).2.get ⟨1, by decide⟩) = true
    ∧ ∃ j, ∃ hj : j < (restart_callback w4state).2.length,
        1 < j ∧ (restart_callback w4state).2.get ⟨j, hj⟩ = Act.sleepSeconds 5 :=
  ⟨by decide, (c4_restart_settling_delay w4state).1 1 (by decide) (by decide)⟩

/-! ### C9: the rolling-restart callback restarts only when the re-derived
stability status projects to Active -/

/-- C9: in the rolling-restart callback, when the re-derived cluster
stability status is not active the event is deferred and the per-node flags
are untouched; and any workload start/restart in the callback's trace
implies the stability status was active. -/
theorem c9_restart_gated_on_stable (S : CharmState) :
    (isActiveStatus S.stableStatus = false →
      (restart_callback S).1.unitServer = S.unitServer
      ∧ (restart_callback S).2 = [Act.setStatus S.stableStatus, Act.deferEvent])
    ∧ (∀ a ∈ (restart_callback S).2, isRestartWork a = true →
        isActiveStatus S.stableStatus = true) := by
  constructor
  · intro h
    constructor
    · simp [restart_callback, h, setStatusS]
    · exact restart_trace_neg S h
  · intro a ha hw
    cases hb : isActiveStatus S.stableStatus
    · rw [restart_trace_neg S hb] at ha
      simp only [List.mem_cons, List.not_mem_nil, or_false] at ha
      rcases ha with h1 | h1
      · rw [h1] at hw; exact Bool.noConfusion hw
      · rw [h1] at hw; exact Bool.noConfusion hw
    · rfl

/-- Witness for C9 at a concrete non-stable state: the callback defers and
leaves the unit's flags alone. -/
theorem c9_witness :
    isActiveStatus ({ w4state with
        stableStatus := Status.serviceUnhealthy } : CharmState).stableStatus = false
    ∧ (restart_callback { w4state with stableStatus := Status.serviceUnhealthy }).1.unitServer
        = ({ w4state with stableStatus := Status.serviceUnhealthy } : CharmState).unitServer
    ∧ (restart_callback { w4state with stableStatus := Status.serviceUnhealthy }).2
        = [Act.setStatus Status.serviceUnhealthy, Act.deferEvent] :=
  ⟨by decide,
   ((c9_restart_gated_on_stable { w4state with stableStatus := Status.serviceUnhealthy }).1
      (by decide)).1,
   ((c9_restart_gated_on_stable { w4state with stableStatus := Status.serviceUnhealthy }).1
      (by decide)).2⟩

/-! ### C10: the startup-order guard blocks only with both components
present and differing -/

/-- C10: when credentials exist and all units are related, `init_server`
proceeds to start the workload exactly when there is no next server with a
visible component name differing from this unit's visible component name;
and when the guard blocks, the only effect is the NOT_UNIT_TURN status. -/
theorem c10_turn_guard (S : CharmState)
    (hcred : S.cluster.hasInternalCredentials = true)
    (hrel : S.allUnitsRelated = true) :
    (Act.startWorkload ∈ (init_server S).2 ↔
      ∀ n u, S.nextServer = some (some n) → S.unitComponent = some u → n = u)
    ∧ (turnBlocked S = true →
        (init_server S).2 = [Act.setStatus Status.notUnitTurn]
        ∧ (init_server S).1 = setStatusS Status.notUnitTurn S) := by
  have hmem : turnBlocked S = false → Act.startWorkload ∈ (init_server S).2 := by
    intro hb
    simp only [init_server, hcred, hrel, hb, Bool.not_true, Bool.false_eq_true,
      if_false, Bool.not_false]
    simp
  constructor
  · constructor
    · intro hmem2 n u hn hu
      by_contra hne
      have hb : turnBlocked S = true := by
        unfold turnBlocked
        rw [hn, hu]
        simp [hne]
      simp [init_server, hcred, hrel, hb] at hmem2
    · intro hall
      have hb : turnBlocked S = false := by
        unfold turnBlocked
        rcases hns : S.nextServer with _ | o
        · rfl
        · rcases o with _ | n
          · rfl
          · rcases hu : S.unitComponent with _ | u
            · rfl
            · have heq := hall n u hns hu
              subst heq
              simp
      exact hmem hb
  · intro hb
    simp [init_server, hcred, hrel, hb]

/-- Witness for C10 at a concrete state where it is this unit's turn: the
workload start is emitted. -/
theorem c10_witness :
    w10state.cluster.hasInternalCredentials = true
    ∧ w10state.allUnitsRelated = true
    ∧ Act.startWorkload ∈ (init_server w10state).2 := by
  refine ⟨by decide, by decide, ?_⟩
  refine (c10_turn_guard w10state (by decide) (by decide)).1.mpr ?_
  intro n u hn hu
  have hn' : (some (some "zookeeper-k8s/0") : Option (Option String)) = some (some n) := hn
  have hu' : (some "zookeeper-k8s/0" : Option String) = some u := hu
  injection hn' with h1
  injection h1 with h2
  injection hu' with h3
  rw [← h2, ← h3]

/-! ### C3: corrected — the guard passes when the next server or a
component is unknown -/

/-- C3 counterexample: in `c3state` the computed next server exists but its
component is not visible, so it is not provably this unit's turn, yet
`init_server` starts the workload, marks the unit started, and does not set
NOT_UNIT_TURN. -/
theorem c3_counterexample :
    c3state.nextServer = some none
    ∧ c3state.unitComponent = some "zookeeper-k8s/1"
    ∧ Act.startWorkload ∈ (init_server c3state).2
    ∧ (init_server c3state).1.unitServer.started = true
    ∧ (init_server c3state).1.status ≠ Status.notUnitTurn := by decide

/-- C3 amended: when the computed next server and this unit both expose
component names and they differ, `init_server` sets NOT_UNIT_TURN and
returns without starting the workload or touching the unit's flags; the
ordering guarantee holds only when this component data is available. -/
theorem c3_amended_turn_order (S : CharmState) (n u : String)
    (hcred : S.cluster.hasInternalCredentials = true)
    (hrel : S.allUnitsRelated = true)
    (hn : S.nextServer = some (some n)) (hu : S.unitComponent = some u)
    (hne : n ≠ u) :
    (init_server S).2 = [Act.setStatus Status.notUnitTurn]
    ∧ (init_server S).1.unitServer = S.unitServer
    ∧ (init_server S).1.status = Status.notUnitTurn := by
  have hb : turnBlocked S = true := by
    unfold turnBlocked
    rw [hn, hu]
    simp [hne]
  simp [init_server, hcred, hrel, hb, setStatusS]

/-- Witness for the amended C3 at a concrete state: unit 1 is blocked while
unit 0 is the next to start. -/
theorem c3_amended_witness :
    (init_server w3state).2 = [Act.setStatus Status.notUnitTurn]
    ∧ (init_server w3state).1.unitServer = w3state.unitServer
    ∧ (init_server w3state).1.status = Status.notUnitTurn :=
  c3_amended_turn_order w3state "zookeeper-k8s/0" "zookeeper-k8s/1"
    (by decide) (by decide) (by decide) (by decide) (by decide)

/-! ### Helper lemmas about update_client_data and update_quorum -/

lemma update_client_data_cluster (S : CharmState) :
    (update_client_data S).1.cluster = S.cluster := by
  unfold update_client_data
  split
  · rfl
  · split <;> rfl

lemma update_client_data_unitServer (S : CharmState) :
    (update_client_data S).1.unitServer = S.unitServer := by
  unfold update_client_data
  split
  · rfl
  · split <;> rfl

lemma update_client_data_trace (S : CharmState) :
    (update_client_data S).2 = [] ∨
      (update_client_data S).2 = [Act.setStatus S.readyStatus] := by
  unfold update_client_data
  split
  · exact Or.inl rfl
  · split
    · exact Or.inr rfl
    · exact Or.inr rfl

lemma update_client_data_shape (S : CharmState) :
    ∃ cls st, (update_client_data S).1 = { S with clients := cls, status := st } := by
  unfold update_client_data setStatusS
  split
  · exact ⟨S.clients, S.status, rfl⟩
  · split
    · exact ⟨S.clients, S.readyStatus, rfl⟩
    · exact ⟨_, S.readyStatus, rfl⟩

lemma initLeaderWrite_shape (S : CharmState) :
    ∃ m, initLeaderWrite S = { S with cluster := { S.cluster with membership := m } } :=
  ⟨_, rfl⟩

lemma quorumSyncState_shape (S : CharmState) (e : Event) :
    ∃ m, quorumSyncState S e = { S with cluster := { S.cluster with membership := m } } := by
  obtain ⟨m1, h1⟩ := initLeaderWrite_shape S
  unfold quorumSyncState membershipWrite
  rw [h1]
  by_cases hr : recomputeCond { S with cluster := { S.cluster with membership := m1 } } e
  · rw [if_pos hr]
    exact ⟨_, rfl⟩
  · rw [if_neg hr]
    exact ⟨m1, rfl⟩

lemma encryptionStep_shape (S : CharmState) :
    ∃ q sw, encryptionStep S
      = { S with cluster := { S.cluster with quorum := q, switchingEncryption := sw } } := by
  unfold encryptionStep quorumTargetWrite
  split
  · split
    · exact ⟨encryptionTarget S, false, rfl⟩
    · exact ⟨encryptionTarget S, S.cluster.switchingEncryption, rfl⟩
  · exact ⟨S.cluster.quorum, S.cluster.switchingEncryption, rfl⟩

/-! ### C6: update_quorum is a no-op for non-leaders and for the departing
leader; departures and elections recompute membership immediately -/

/-- C6: `update_quorum` writes nothing at all (state unchanged, no effects)
on a non-leader and when the event's departing unit is this unit; when the
leader handles a relation-departed or leader-elected event for another
unit, membership is recomputed and written in the same invocation and the
event is never deferred. -/
theorem c6_update_quorum_noop_and_immediacy (S : CharmState) (e : Event) :
    ((S.isLeader = false ∨ e.departingIsSelf = true) → update_quorum S e = (S, []))
    ∧ (S.isLeader = true → e.departingIsSelf = false →
        (e.isRelationDeparted = true ∨ e.isLeaderElected = true) →
        Act.writeMembership ∈ (update_quorum S e).2
        ∧ Act.deferEvent ∉ (update_quorum S e).2) := by
  constructor
  · intro h
    have hc : (!S.isLeader || e.departingIsSelf) = true := by
      rcases h with h | h <;> simp [h]
    simp [update_quorum, hc]
  · intro hl hd he
    have hc : (!S.isLeader || e.departingIsSelf) = false := by simp [hl, hd]
    have hr : recomputeCond (initLeaderWrite S) e = true := by
      unfold recomputeCond
      rcases he with h | h <;> simp [h]
    have ht : quorumSyncTrace S e = [Act.writeMembership] := by
      unfold quorumSyncTrace
      rw [if_pos hr]
    unfold update_quorum
    rw [hc]
    simp only [Bool.false_eq_true, if_false]
    cases ha : isActiveStatus S.stableStatus
    · simp only [ha, Bool.not_false, if_true, ht]
      constructor
      · simp
      · simp
    · simp only [ha, Bool.not_true, Bool.false_eq_true, if_false, ht]
      rcases update_client_data_trace
          (encryptionStep (setStatusS S.stableStatus (quorumSyncState S e))) with h | h <;>
        rw [h] <;> constructor <;> simp

/-- Witness for C6 at concrete inputs: no-op for a non-leader on a plain
event, and immediate membership write without deferral for the leader on a
relation-departed event. -/
theorem c6_witness :
    (baseState.isLeader = false ∧ update_quorum baseState plainEvent = (baseState, []))
    ∧ (w6state.isLeader = true ∧ departedEvent.departingIsSelf = false
        ∧ departedEvent.isRelationDeparted = true
        ∧ Act.writeMembership ∈ (update_quorum w6state departedEvent).2
        ∧ Act.deferEvent ∉ (update_quorum w6state departedEvent).2) :=
  ⟨⟨by decide, (c6_update_quorum_noop_and_immediacy baseState plainEvent).1 (Or.inl (by decide))⟩,
   ⟨by decide, by decide, by decide,
    ((c6_update_quorum_noop_and_immediacy w6state departedEvent).2 (by decide) (by decide)
      (Or.inl (by decide))).1,
    ((c6_update_quorum_noop_and_immediacy w6state departedEvent).2 (by decide) (by decide)
      (Or.inl (by decide))).2⟩⟩

/-! ### C1: switching-encryption is cleared only in a fully converged
state -/

/-- C1: whenever `update_quorum` clears a set switchingEncryption flag, the
invocation was on the leader, every known node reported unifiedFlag true,
the cluster-wide quorum has been advanced to the tls-dictated target in the
same invocation, and every node's reported quorum already equals that
target. -/
theorem c1_switching_cleared_only_converged (S : CharmState) (e : Event)
    (hsw : S.cluster.switchingEncryption = true)
    (hres : (update_quorum S e).1.cluster.switchingEncryption = false) :
    S.isLeader = true
    ∧ all_units_unified S = true
    ∧ (update_quorum S e).1.cluster.quorum = (if S.cluster.tls then "ssl" else "non-ssl")
    ∧ (servers S).all
        (fun sv => sv.quorum == (if S.cluster.tls then "ssl" else "non-ssl")) = true := by
  unfold update_quorum at hres ⊢
  by_cases hc : (!S.isLeader || e.departingIsSelf) = true
  · simp only [hc, if_true] at hres
    rw [hres] at hsw
    exact Bool.noConfusion hsw
  · have hc' : (!S.isLeader || e.departingIsSelf) = false := by
      revert hc
      cases (!S.isLeader || e.departingIsSelf) <;> simp
    have hl : S.isLeader = true := by
      revert hc'
      cases S.isLeader <;> simp
    simp only [hc', Bool.false_eq_true, if_false] at hres ⊢
    obtain ⟨m, hm⟩ := quorumSyncState_shape S e
    by_cases ha : isActiveStatus S.stableStatus = true
    case neg =>
      have ha' : isActiveStatus S.stableStatus = false := by
        revert ha
        cases isActiveStatus S.stableStatus <;> simp
      simp only [ha', Bool.not_false, if_true] at hres
      rw [hm] at hres
      have hx : S.cluster.switchingEncryption = false := hres
      rw [hsw] at hx
      exact Bool.noConfusion hx
    case pos =>
      simp only [ha, Bool.not_true, Bool.false_eq_true, if_false] at hres ⊢
      rw [hm] at hres ⊢
      rw [update_client_data_cluster] at hres ⊢
      by_cases hu : all_units_unified (setStatusS S.stableStatus
          { S with cluster := { S.cluster with membership := m } }) = true
      · unfold encryptionStep at hres ⊢
        simp only [hu, if_true] at hres ⊢
        by_cases hq : all_units_quorum (quorumTargetWrite (setStatusS S.stableStatus
            { S with cluster := { S.cluster with membership := m } })) = true
        · simp only [hq, if_true] at hres ⊢
          exact ⟨hl, hu, rfl, hq⟩
        · simp only [Bool.not_eq_true] at hq
          simp only [hq, Bool.false_eq_true, if_false] at hres
          have hx : S.cluster.switchingEncryption = false := hres
          rw [hsw] at hx
          exact Bool.noConfusion hx
      · simp only [Bool.not_eq_true] at hu
        unfold encryptionStep at hres
        simp only [hu, Bool.false_eq_true, if_false] at hres
        have hx : S.cluster.switchingEncryption = false := hres
        rw [hsw] at hx
        exact Bool.noConfusion hx

/-- Witness for C1 at a concrete mid-migration leader state: the clear
happens and the theorem's conclusions evaluate. -/
theorem c1_witness :
    w1state.cluster.switchingEncryption = true
    ∧ (update_quorum w1state plainEvent).1.cluster.switchingEncryption = false
    ∧ (w1state.isLeader = true
       ∧ all_units_unified w1state = true
       ∧ (update_quorum w1state plainEvent).1.cluster.quorum
           = (if w1state.cluster.tls then "ssl" else "non-ssl")
       ∧ (servers w1state).all
           (fun sv => sv.quorum == (if w1state.cluster.tls then "ssl" else "non-ssl")) = true) :=
  ⟨by decide, by decide,
   c1_switching_cleared_only_converged w1state plainEvent (by decide) (by decide)⟩

/-! ### Trace lemmas: which actions each stage can emit -/

lemma init_server_no_renewal (S : CharmState) :
    Act.emitCertRenewal ∉ (init_server S).2 := by
  unfold init_server
  split_ifs <;> simp

lemma init_server_no_restart (S : CharmState) :
    Act.restartWorkload ∉ (init_server S).2 := by
  unfold init_server
  split_ifs <;> simp

lemma initStage_no_renewal (S : CharmState) :
    Act.emitCertRenewal ∉ (initStage S).2 := by
  unfold initStage
  split
  · simp
  · exact init_server_no_renewal S

lemma initStage_no_restart (S : CharmState) :
    Act.restartWorkload ∉ (initStage S).2 := by
  unfold initStage
  split
  · simp
  · exact init_server_no_restart S

lemma update_external_services_no_renewal (S : CharmState) :
    Act.emitCertRenewal ∉ (update_external_services S).2 := by
  unfold update_external_services
  split
  · simp
  · cases S.exposeExternal <;> simp

lemma update_external_services_no_restart (S : CharmState) :
    Act.restartWorkload ∉ (update_external_services S).2 := by
  unfold update_external_services
  split
  · simp
  · cases S.exposeExternal <;> simp

lemma update_quorum_no_renewal (S : CharmState) (e : Event) :
    Act.emitCertRenewal ∉ (update_quorum S e).2 := by
  unfold update_quorum quorumSyncTrace
  rcases update_client_data_trace
      (encryptionStep (setStatusS S.stableStatus (quorumSyncState S e))) with h | h <;>
    rw [h] <;> split_ifs <;> simp

lemma update_quorum_no_restart (S : CharmState) (e : Event) :
    Act.restartWorkload ∉ (update_quorum S e).2 := by
  unfold update_quorum quorumSyncTrace
  rcases update_client_data_trace
      (encryptionStep (setStatusS S.stableStatus (quorumSyncState S e))) with h | h <;>
    rw [h] <;> split_ifs <;> simp

lemma update_quorum_no_lock (S : CharmState) (e : Event) :
    Act.acquireRestartLock ∉ (update_quorum S e).2 := by
  unfold update_quorum quorumSyncTrace
  rcases update_client_data_trace
      (encryptionStep (setStatusS S.stableStatus (quorumSyncState S e))) with h | h <;>
    rw [h] <;> split_ifs <;> simp

lemma afterQuorum_no_renewal (S : CharmState) (e : Event) :
    Act.emitCertRenewal ∉ (afterQuorum S e).2 := by
  unfold afterQuorum
  split_ifs <;> simp

lemma afterQuorum_no_restart (S : CharmState) (e : Event) :
    Act.restartWorkload ∉ (afterQuorum S e).2 := by
  unfold afterQuorum
  split_ifs <;> simp

/-! ### Certificate preservation lemmas -/

lemma initStage_certificate (S : CharmState) :
    (initStage S).1.unitServer.certificate = S.unitServer.certificate := by
  unfold initStage init_server
  split_ifs <;> rfl

lemma update_external_services_certificate (S : CharmState) :
    (update_external_services S).1.unitServer.certificate = S.unitServer.certificate := by
  unfold update_external_services
  split
  · rfl
  · cases S.exposeExternal <;> rfl

lemma sansMismatch_of_cert_empty (S : CharmState)
    (h : S.unitServer.certificate = "") : sansMismatch S = false := by
  unfold sansMismatch get_current_sans
  rw [h]
  simp

/-! ### C2: no second certificate renewal while the reference is cleared -/

/-- C2: when the stored certificate reference is cleared (as it is right
after a SAN mismatch triggered a renewal) and no new certificate has been
delivered, re-running the reconciliation handler never emits another
certificate-renewal request, so at most one renewal is in flight. -/
theorem c2_no_second_renewal (S : CharmState) (e : Event)
    (hcert : S.unitServer.certificate = "") :
    Act.emitCertRenewal ∉ (on_cluster_relation_changed S e).2 := by
  unfold on_cluster_relation_changed
  by_cases h1 : S.containerCanConnect = true
  case neg =>
    have h1' : S.containerCanConnect = false := by
      revert h1
      cases S.containerCanConnect <;> simp
    simp [h1']
  case pos =>
  simp only [h1, Bool.not_true, Bool.false_eq_true, if_false]
  by_cases h2 : S.hasPeerRelation = true
  case neg =>
    have h2' : S.hasPeerRelation = false := by
      revert h2
      cases S.hasPeerRelation <;> simp
    simp [h2']
  case pos =>
  simp only [h2, Bool.not_true, Bool.false_eq_true, if_false]
  by_cases h3 : S.cluster.restoreInProgress = true
  case pos => simp [h3]
  case neg =>
  have h3' : S.cluster.restoreInProgress = false := by
    revert h3
    cases S.cluster.restoreInProgress <;> simp
  simp only [h3', Bool.false_eq_true, if_false]
  by_cases h4 : S.upgradeIdle = true
  case neg =>
    have h4' : S.upgradeIdle = false := by
      revert h4
      cases S.upgradeIdle <;> simp
    simp [h4']
  case pos =>
  simp only [h4, Bool.not_true, Bool.false_eq_true, if_false]
  have hc2 : (update_external_services (initStage S).1).1.unitServer.certificate = "" := by
    rw [update_external_services_certificate, initStage_certificate]
    exact hcert
  have hs : sansMismatch (update_external_services (initStage S).1).1 = false :=
    sansMismatch_of_cert_empty _ hc2
  by_cases h5 : (update_external_services (initStage S).1).1.endpointsKnown = true
  case neg =>
    have h5' : (update_external_services (initStage S).1).1.endpointsKnown = false := by
      revert h5
      cases (update_external_services (initStage S).1).1.endpointsKnown <;> simp
    simp only [h5', Bool.not_false, if_true]
    intro ha
    rcases List.mem_append.mp ha with hb | hb
    · rcases List.mem_append.mp hb with hd | hd
      · exact initStage_no_renewal S hd
      · exact update_external_services_no_renewal _ hd
    · simp at hb
  case pos =>
  simp only [h5, Bool.not_true, Bool.false_eq_true, if_false, hs]
  intro ha
  rcases List.mem_append.mp ha with hb | hb
  · rcases List.mem_append.mp hb with hd | hd
    · rcases List.mem_append.mp hd with hf | hf
      · exact initStage_no_renewal S hf
      · exact update_external_services_no_renewal _ hf
    · exact update_quorum_no_renewal _ e hd
  · exact afterQuorum_no_renewal _ e hb

/-- Witness for C2: a concrete cleared-certificate state on which the
handler emits no renewal. -/
theorem c2_witness :
    baseState.unitServer.certificate = ""
    ∧ Act.emitCertRenewal ∉ (on_cluster_relation_changed baseState plainEvent).2 :=
  ⟨by decide, c2_no_second_renewal baseState plainEvent (by decide)⟩

/-! ### Shape lemmas for the reconciliation pipeline -/

lemma initStage_of_started (S : CharmState) (h : S.unitServer.started = true) :
    initStage S = (S, []) := by
  unfold initStage
  rw [h]
  simp

lemma update_external_services_unitServer (S : CharmState) :
    (update_external_services S).1.unitServer = S.unitServer := by
  unfold update_external_services
  split
  · rfl
  · cases S.exposeExternal <;> rfl

lemma update_external_services_cluster (S : CharmState) :
    (update_external_services S).1.cluster = S.cluster := by
  unfold update_external_services
  split
  · rfl
  · cases S.exposeExternal <;> rfl

lemma update_external_services_clients (S : CharmState) :
    (update_external_services S).1.clients = S.clients := by
  unfold update_external_services
  split
  · rfl
  · cases S.exposeExternal <;> rfl

lemma update_external_services_endpointsKnown (S : CharmState) :
    (update_external_services S).1.endpointsKnown = S.endpointsKnown := by
  unfold update_external_services
  split
  · rfl
  · cases S.exposeExternal <;> rfl

lemma update_external_services_configChanged (S : CharmState) :
    (update_external_services S).1.configChanged = S.configChanged := by
  unfold update_external_services
  split
  · rfl
  · cases S.exposeExternal <;> rfl

lemma update_external_services_upgradeIdle (S : CharmState) :
    (update_external_services S).1.upgradeIdle = S.upgradeIdle := by
  unfold update_external_services
  split
  · rfl
  · cases S.exposeExternal <;> rfl

lemma sansMismatch_update_external_services (S : CharmState) :
    sansMismatch (update_external_services S).1 = sansMismatch S := by
  unfold update_external_services
  split
  · rfl
  · cases S.exposeExternal <;> rfl

lemma update_external_services_no_lock (S : CharmState) :
    Act.acquireRestartLock ∉ (update_external_services S).2 := by
  unfold update_external_services
  split
  · simp
  · cases S.exposeExternal <;> simp

lemma update_quorum_shape (S : CharmState) (e : Event) :
    ∃ c cls st, (update_quorum S e).1 = { S with cluster := c, clients := cls, status := st } := by
  unfold update_quorum
  obtain ⟨m, hm⟩ := quorumSyncState_shape S e
  split_ifs
  · exact ⟨S.cluster, S.clients, S.status, rfl⟩
  · rw [hm]
    exact ⟨_, S.clients, S.stableStatus, rfl⟩
  · rw [hm]
    obtain ⟨q, sw, hq⟩ := encryptionStep_shape (setStatusS S.stableStatus
      { S with cluster := { S.cluster with membership := m } })
    rw [hq]
    obtain ⟨cls, st, hu⟩ := update_client_data_shape ({ setStatusS S.stableStatus
        { S with cluster := { S.cluster with membership := m } } with
      cluster := { (setStatusS S.stableStatus
        { S with cluster := { S.cluster with membership := m } }).cluster with
          quorum := q, switchingEncryption := sw } })
    rw [hu]
    exact ⟨_, _, _, rfl⟩

lemma afterQuorum_cluster (S : CharmState) (e : Event) :
    (afterQuorum S e).1.cluster = S.cluster := by
  unfold afterQuorum
  split_ifs <;> rfl

lemma afterQuorum_unitServer (S : CharmState) (e : Event) :
    (afterQuorum S e).1.unitServer = S.unitServer := by
  unfold afterQuorum
  split_ifs <;> rfl

lemma afterQuorum_lock_iff (S : CharmState) (e : Event)
    (hd : e.departingIsSelf = false) :
    (Act.acquireRestartLock ∈ (afterQuorum S e).2 ↔
      ((S.configChanged || S.cluster.switchingEncryption)
        && S.unitServer.started && S.upgradeIdle) = true) := by
  unfold afterQuorum
  simp only [hd, Bool.false_eq_true, if_false]
  split_ifs <;> simp_all

/-! ### C5: coordinated restart is requested via the restart lock, exactly
under the restart condition, and the workload is never restarted directly -/

/-- C5: when reconciliation reaches the restart decision (container
reachable, peer relation up, no restore, upgrade idle, this unit already
started, endpoints known, no SAN mismatch, not this unit's departure), the
rolling-restart lock acquisition is emitted exactly when the configuration
changed or the cluster is mid encryption-migration (the flag as this
reconciliation leaves it) while the unit is started and the upgrade is
idle; and the handler never restarts the workload directly. -/
theorem c5_coordinated_restart_exactly_when (S : CharmState) (e : Event)
    (h1 : S.containerCanConnect = true) (h2 : S.hasPeerRelation = true)
    (h3 : S.cluster.restoreInProgress = false) (h4 : S.upgradeIdle = true)
    (h5 : S.unitServer.started = true) (h6 : S.endpointsKnown = true)
    (h7 : sansMismatch S = false) (h8 : e.departingIsSelf = false) :
    (Act.acquireRestartLock ∈ (on_cluster_relation_changed S e).2 ↔
      ((S.configChanged = true
          ∨ (on_cluster_relation_changed S e).1.cluster.switchingEncryption = true)
        ∧ S.unitServer.started = true ∧ S.upgradeIdle = true))
    ∧ Act.restartWorkload ∉ (on_cluster_relation_changed S e).2 := by
  unfold on_cluster_relation_changed
  simp only [h1, h2, h3, h4, Bool.not_true, Bool.false_eq_true, if_false]
  rw [initStage_of_started S h5]
  have hT6 : (update_external_services S).1.endpointsKnown = true := by
    rw [update_external_services_endpointsKnown]
    exact h6
  have hTs : sansMismatch (update_external_services S).1 = false := by
    rw [sansMismatch_update_external_services]
    exact h7
  simp only [hT6, hTs, Bool.not_true, Bool.false_eq_true, if_false]
  obtain ⟨c, cls, st, hU⟩ := update_quorum_shape (update_external_services S).1 e
  rw [hU, afterQuorum_cluster]
  constructor
  · have hmm : Act.acquireRestartLock ∈
        (([] ++ (update_external_services S).2)
          ++ (update_quorum (update_external_services S).1 e).2
          ++ (afterQuorum { (update_external_services S).1 with
                cluster := c, clients := cls, status := st } e).2) ↔
        Act.acquireRestartLock ∈ (afterQuorum { (update_external_services S).1 with
            cluster := c, clients := cls, status := st } e).2 := by
      simp only [List.mem_append, List.nil_append]
      constructor
      · rintro ((h | h) | h)
        · exact absurd h (update_external_services_no_lock S)
        · exact absurd h (update_quorum_no_lock _ e)
        · exact h
      · intro h
        exact Or.inr h
    rw [hmm, afterQuorum_lock_iff _ e h8]
    have hc1 : ({ (update_external_services S).1 with
        cluster := c, clients := cls, status := st } : CharmState).configChanged
        = S.configChanged := update_external_services_configChanged S
    have hc2 : ({ (update_external_services S).1 with
        cluster := c, clients := cls, status := st } : CharmState).unitServer
        = S.unitServer := update_external_services_unitServer S
    have hc3 : ({ (update_external_services S).1 with
        cluster := c, clients := cls, status := st } : CharmState).upgradeIdle
        = S.upgradeIdle := update_external_services_upgradeIdle S
    rw [hc1, hc2, hc3, h4, h5]
    simp [Bool.or_eq_true]
  · intro ha
    rcases List.mem_append.mp ha with hb | hb
    · rcases List.mem_append.mp hb with hd | hd
      · rcases List.mem_append.mp hd with hf | hf
        · simp at hf
        · exact update_external_services_no_restart S hf
      · exact update_quorum_no_restart _ e hd
    · exact afterQuorum_no_restart _ e hb

/-- Witness for C5 at a concrete started state with a pending configuration
change: the lock acquisition is emitted and no direct restart occurs. -/
theorem c5_witness :
    (Act.acquireRestartLock ∈ (on_cluster_relation_changed w5state plainEvent).2 ↔
      ((w5state.configChanged = true
          ∨ (on_cluster_relation_changed w5state plainEvent).1.cluster.switchingEncryption = true)
        ∧ w5state.unitServer.started = true ∧ w5state.upgradeIdle = true))
    ∧ Act.restartWorkload ∉ (on_cluster_relation_changed w5state plainEvent).2 :=
  c5_coordinated_restart_exactly_when w5state plainEvent (by decide) (by decide)
    (by decide) (by decide) (by decide) (by decide) (by decide) (by decide)

/-! ### C8: client data publication is leader-only and skips clients whose
password is not yet in the jaas file -/

lemma forall2_map_self {α : Type} (R : α → α → Prop) (f : α → α) (l : List α)
    (h : ∀ c ∈ l, R c (f c)) : List.Forall₂ R l (l.map f) := by
  induction l with
  | nil => exact List.Forall₂.nil
  | cons a t ih =>
    exact List.Forall₂.cons (h a (List.mem_cons_self a t))
      (ih (fun c hc => h c (List.mem_cons_of_mem a hc)))

/-- C8: `update_client_data` writes nothing on a non-leader; on the leader
with the readiness status active, each registered consumer whose password is
unset or not yet contained in the materialized jaas content is left entirely
unchanged, and every other consumer's databag receives the advertised
endpoints, tls flag, username, password and database. -/
theorem c8_client_data_publication (S : CharmState) :
    (S.isLeader = false → update_client_data S = (S, []))
    ∧ (S.isLeader = true → isActiveStatus S.readyStatus = true →
        List.Forall₂ (fun c c' : ClientApp =>
          ((c.password = "" ∨ strContains S.currentJaas c.password = false) → c' = c)
          ∧ ((c.password ≠ "" ∧ strContains S.currentJaas c.password = true) →
              c'.bag.endpoints = c.endpoints ∧ c'.bag.tls = c.tls
              ∧ c'.bag.username = c.username ∧ c'.bag.password = c.password
              ∧ c'.bag.database = c.database))
          S.clients (update_client_data S).1.clients) := by
  constructor
  · intro h
    unfold update_client_data
    rw [h]
    simp
  · intro hl hr
    unfold update_client_data
    rw [hl, hr]
    simp only [Bool.not_true, Bool.false_eq_true, if_false]
    refine forall2_map_self _ _ _ ?_
    intro c _
    by_cases hsk : clientSkip S.currentJaas c = true
    · rw [if_pos hsk]
      constructor
      · intro _
        rfl
      · intro hp
        unfold clientSkip at hsk
        rcases hp with ⟨hp1, hp2⟩
        rw [hp2] at hsk
        simp at hsk
        exact absurd hsk hp1
    · rw [if_neg hsk]
      constructor
      · intro hp
        exfalso
        apply hsk
        unfold clientSkip
        rcases hp with hp | hp
        · rw [hp]
          simp
        · rw [hp]
          simp
      · intro _
        exact ⟨rfl, rfl, rfl, rfl, rfl⟩

/-- Witness for C8 at a concrete leader state with one publishable and one
not-yet-loaded client. -/
theorem c8_witness :
    w8state.isLeader = true ∧ isActiveStatus w8state.readyStatus = true
    ∧ List.Forall₂ (fun c c' : ClientApp =>
        ((c.password = "" ∨ strContains w8state.currentJaas c.password = false) → c' = c)
        ∧ ((c.password ≠ "" ∧ strContains w8state.currentJaas c.password = true) →
            c'.bag.endpoints = c.endpoints ∧ c'.bag.tls = c.tls
            ∧ c'.bag.username = c.username ∧ c'.bag.password = c.password
            ∧ c'.bag.database = c.database))
        w8state.clients (update_client_data w8state).1.clients :=
  ⟨by decide, by decide,
   (c8_client_data_publication w8state).2 (by decide) (by decide)⟩

/-! ### C7 counterexample: reconcile is not idempotent across a
certificate-renewal cycle -/

/-- C7 counterexample: at `c7state` the first reconcile run detects the SAN
mismatch, clears the certificate and returns early with the status
untouched; re-running the handler with no external change proceeds past the
transport-identity step and ends ACTIVE, so the observable status after the
second invocation differs from the status after the first. -/
theorem c7_counterexample :
    (on_cluster_relation_changed c7state plainEvent).1.unitServer.certificate = ""
    ∧ (on_cluster_relation_changed c7state plainEvent).1.status = Status.noPeerRelation
    ∧ (on_cluster_relation_changed
        (on_cluster_relation_changed c7state plainEvent).1 plainEvent).1.status
        = Status.active
    ∧ (on_cluster_relation_changed
        (on_cluster_relation_changed c7state plainEvent).1 plainEvent).1.status
      ≠ (on_cluster_relation_changed c7state plainEvent).1.status := by decide

/-! ### Lookup and setKey lemmas for the membership mapping -/

lemma lookup_cons_eq (pk k : Nat) (pv : String) (t : List (Nat × String))
    (h : k = pk) : List.lookup k ((pk, pv) :: t) = some pv := by
  rw [List.lookup_cons]
  simp [h]

lemma lookup_cons_ne (pk k : Nat) (pv : String) (t : List (Nat × String))
    (h : ¬ k = pk) : List.lookup k ((pk, pv) :: t) = List.lookup k t := by
  rw [List.lookup_cons]
  have hb : (k == pk) = false := by simp [h]
  rw [hb]

lemma lookup_map_set (m : List (Nat × String)) (k : Nat) (v : String)
    (h : m.any (fun p => p.1 == k) = true) :
    (m.map (fun p => if p.1 == k then (k, v) else p)).lookup k = some v := by
  induction m with
  | nil => simp at h
  | cons p t ih =>
    obtain ⟨pk, pv⟩ := p
    rw [List.map_cons]
    by_cases hp : pk = k
    · have hb : ((pk, pv).1 == k) = true := by simp [hp]
      rw [if_pos hb]
      exact lookup_cons_eq k k v _ rfl
    · have hb : ¬ ((pk, pv).1 == k) = true := by simp [hp]
      rw [if_neg hb]
      have h2 : t.any (fun p => p.1 == k) = true := by
        simp only [List.any_cons, beq_iff_eq] at h
        simpa [hp] using h
      rw [lookup_cons_ne pk k pv _ (fun hh => hp hh.symm)]
      exact ih h2

lemma lookup_map_set_other (m : List (Nat × String)) (k : Nat) (v : String)
    (k' : Nat) (hne : k' ≠ k) :
    (m.map (fun p => if p.1 == k then (k, v) else p)).lookup k' = m.lookup k' := by
  induction m with
  | nil => rfl
  | cons p t ih =>
    obtain ⟨pk, pv⟩ := p
    rw [List.map_cons]
    by_cases hp : pk = k
    · have hb : ((pk, pv).1 == k) = true := by simp [hp]
      rw [if_pos hb]
      rw [lookup_cons_ne k k' v _ hne,
        lookup_cons_ne pk k' pv t (fun hh => hne (hh.trans hp))]
      exact ih
    · have hb : ¬ ((pk, pv).1 == k) = true := by simp [hp]
      rw [if_neg hb]
      by_cases hq : k' = pk
      · rw [lookup_cons_eq pk k' pv _ hq, lookup_cons_eq pk k' pv t hq]
      · rw [lookup_cons_ne pk k' pv _ hq, lookup_cons_ne pk k' pv t hq]
        exact ih

lemma lookup_none_of_no_key (m : List (Nat × String)) (k : Nat)
    (h : m.any (fun p => p.1 == k) = false) : m.lookup k = none := by
  induction m with
  | nil => rfl
  | cons p t ih =>
    obtain ⟨pk, pv⟩ := p
    simp only [List.any_cons, Bool.or_eq_false_iff, beq_eq_false_iff_ne] at h
    rw [lookup_cons_ne pk k pv t (fun hh => h.1 hh.symm)]
    exact ih (by simpa [beq_eq_false_iff_ne] using h.2)

lemma lookup_append_of_none (m t : List (Nat × String)) (k : Nat)
    (h : m.lookup k = none) : (m ++ t).lookup k = t.lookup k := by
  induction m with
  | nil => rfl
  | cons p s ih =>
    obtain ⟨pk, pv⟩ := p
    by_cases hp : k = pk
    · rw [lookup_cons_eq pk k pv s hp] at h
      exact Option.noConfusion h
    · rw [lookup_cons_ne pk k pv s hp] at h
      rw [List.cons_append, lookup_cons_ne pk k pv _ hp]
      exact ih h

lemma lookup_append_first (m t : List (Nat × String)) (k : Nat) (w : String)
    (h : m.lookup k = some w) : (m ++ t).lookup k = some w := by
  induction m with
  | nil => exact Option.noConfusion h
  | cons p s ih =>
    obtain ⟨pk, pv⟩ := p
    by_cases hp : k = pk
    · rw [lookup_cons_eq pk k pv s hp] at h
      rw [List.cons_append, lookup_cons_eq pk k pv _ hp]
      exact h
    · rw [lookup_cons_ne pk k pv s hp] at h
      rw [List.cons_append, lookup_cons_ne pk k pv _ hp]
      exact ih h

lemma setKey_lookup_self (m : List (Nat × String)) (k : Nat) (v : String) :
    (setKey m k v).lookup k = some v := by
  unfold setKey
  split_ifs with h1 h2
  · exact h1
  · exact lookup_map_set m k v h2
  · have h2' : m.any (fun p => p.1 == k) = false := by
      revert h2
      cases m.any (fun p => p.1 == k) <;> simp
    rw [lookup_append_of_none m _ k (lookup_none_of_no_key m k h2')]
    exact lookup_cons_eq k k v [] rfl

lemma setKey_noop (m : List (Nat × String)) (k : Nat) (v : String)
    (h : m.lookup k = some v) : setKey m k v = m := by
  unfold setKey
  rw [if_pos h]

lemma lookup_setKey_other (m : List (Nat × String)) (k : Nat) (v : String)
    (k' : Nat) (hne : k' ≠ k) :
    (setKey m k v).lookup k' = m.lookup k' := by
  unfold setKey
  split_ifs with h1 h2
  · rfl
  · exact lookup_map_set_other m k v k' hne
  · cases hm : m.lookup k' with
    | some w => rw [lookup_append_first m _ k' w hm]
    | none =>
      rw [lookup_append_of_none m _ k' hm]
      rw [lookup_cons_ne k k' v [] hne]
      rfl

lemma setKey_preserves_added (m : List (Nat × String)) (k k' : Nat)
    (h : m.lookup k' = some "added") :
    (setKey m k "added").lookup k' = some "added" := by
  by_cases hk : k' = k
  · subst hk
    exact setKey_lookup_self m k' "added"
  · rw [lookup_setKey_other m k "added" k' hk]
    exact h

/-! ### Fixpoint lemmas for the membership recomputation -/

lemma foldl_mark_preserves_added (svs : List ServerInfo) (m : List (Nat × String)) (k : Nat)
    (h : m.lookup k = some "added") :
    (svs.foldl (fun m sv => if sv.started then setKey m sv.unitId "added" else m) m).lookup k
      = some "added" := by
  induction svs generalizing m with
  | nil => exact h
  | cons sv t ih =>
    rw [List.foldl_cons]
    by_cases hs : sv.started = true
    · rw [if_pos hs]
      exact ih _ (setKey_preserves_added m sv.unitId k h)
    · rw [if_neg hs]
      exact ih _ h

lemma foldl_mark_adds (svs : List ServerInfo) (m : List (Nat × String)) (sv : ServerInfo)
    (hmem : sv ∈ svs) (hst : sv.started = true) :
    (svs.foldl (fun m sv => if sv.started then setKey m sv.unitId "added" else m) m).lookup
      sv.unitId = some "added" := by
  revert hmem
  induction svs generalizing m with
  | nil =>
    intro hmem
    cases hmem
  | cons a t ih =>
    intro hmem
    rw [List.foldl_cons]
    rcases List.mem_cons.mp hmem with heq | hmem2
    · subst heq
      rw [if_pos hst]
      exact foldl_mark_preserves_added t _ _ (setKey_lookup_self m sv.unitId "added")
    · by_cases ha : a.started = true
      · rw [if_pos ha]
        exact ih _ hmem2
      · rw [if_neg ha]
        exact ih _ hmem2

lemma foldl_mark_noop (svs : List ServerInfo) (m : List (Nat × String))
    (h : ∀ sv ∈ svs, sv.started = true → m.lookup sv.unitId = some "added") :
    svs.foldl (fun m sv => if sv.started then setKey m sv.unitId "added" else m) m = m := by
  revert h
  induction svs generalizing m with
  | nil =>
    intro _
    rfl
  | cons a t ih =>
    intro h
    rw [List.foldl_cons]
    by_cases ha : a.started = true
    · rw [if_pos ha, setKey_noop m a.unitId "added" (h a (List.mem_cons_self a t) ha)]
      exact ih _ (fun sv hm hs => h sv (List.mem_cons_of_mem a hm) hs)
    · rw [if_neg ha]
      exact ih _ (fun sv hm hs => h sv (List.mem_cons_of_mem a hm) hs)

lemma stale_quorum_false_iff (S : CharmState) :
    stale_quorum S = false ↔
      ∀ sv ∈ servers S, sv.started = true →
        S.cluster.membership.lookup sv.unitId = some "added" := by
  unfold stale_quorum
  rw [List.any_eq_false]
  constructor
  · intro h sv hm hs
    have h2 := h sv hm
    simp only [hs, Bool.true_and, Bool.not_eq_true'] at h2
    by_contra hP
    exact h2 (decide_eq_false hP)
  · intro h sv hm
    intro hcon
    simp only [Bool.and_eq_true, Bool.not_eq_true'] at hcon
    exact absurd (h sv hm hcon.1) (of_decide_eq_false hcon.2)

lemma qss_all_added (S : CharmState) (e : Event) :
    ∀ sv ∈ servers S, sv.started = true →
      (quorumSyncState S e).cluster.membership.lookup sv.unitId = some "added" := by
  intro sv hm hs
  unfold quorumSyncState
  split_ifs with hr
  · show (update_cluster (initLeaderWrite S)).lookup sv.unitId = some "added"
    unfold update_cluster
    exact foldl_mark_adds _ _ sv hm hs
  · have hstale : stale_quorum (initLeaderWrite S) = false := by
      revert hr
      unfold recomputeCond
      cases stale_quorum (initLeaderWrite S) <;> simp
    exact (stale_quorum_false_iff (initLeaderWrite S)).mp hstale sv hm hs

lemma qss_initLeader_added (S : CharmState) (e : Event) (uid : Nat)
    (h : S.initLeader = some (uid, true)) :
    (quorumSyncState S e).cluster.membership.lookup uid = some "added" := by
  have hbase : (initLeaderWrite S).cluster.membership.lookup uid = some "added" := by
    unfold initLeaderWrite
    rw [h]
    exact setKey_lookup_self _ _ _
  unfold quorumSyncState
  split_ifs with hr
  · show (update_cluster (initLeaderWrite S)).lookup uid = some "added"
    unfold update_cluster
    exact foldl_mark_preserves_added _ _ _ hbase
  · exact hbase

lemma record_membership_noop (X : CharmState) (m : List (Nat × String))
    (h : m = X.cluster.membership) :
    ({ X with cluster := { X.cluster with membership := m } } : CharmState) = X := by
  rw [h]

lemma initLeaderWrite_noop (S X : CharmState) (e : Event)
    (hil : X.initLeader = S.initLeader)
    (hm : X.cluster.membership = (quorumSyncState S e).cluster.membership) :
    initLeaderWrite X = X := by
  unfold initLeaderWrite
  apply record_membership_noop
  rcases hx : X.initLeader with _ | ⟨uid, b⟩
  · rfl
  · cases b with
    | false => rfl
    | true =>
      have hl : X.cluster.membership.lookup uid = some "added" := by
        rw [hm]
        exact qss_initLeader_added S e uid (by rw [← hil, hx])
      exact (setKey_noop _ _ _ hl).symm.symm

lemma quorumSyncState_fix (S X : CharmState) (e : Event)
    (hm : X.cluster.membership = (quorumSyncState S e).cluster.membership)
    (hil : X.initLeader = S.initLeader)
    (hus : X.unitServer = S.unitServer)
    (hos : X.otherServers = S.otherServers) :
    quorumSyncState X e = X := by
  have hILX : initLeaderWrite X = X := initLeaderWrite_noop S X e hil hm
  have hadded : ∀ sv ∈ servers X, sv.started = true →
      X.cluster.membership.lookup sv.unitId = some "added" := by
    intro sv hmem hs
    rw [hm]
    apply qss_all_added S e sv _ hs
    unfold servers at hmem ⊢
    rw [hus, hos] at hmem
    exact hmem
  unfold quorumSyncState
  rw [hILX]
  split_ifs with hr
  · unfold membershipWrite
    apply record_membership_noop
    unfold update_cluster
    exact foldl_mark_noop _ _ hadded
  · rfl

/-! ### Branch-resolved run lemmas and idempotence helpers -/

lemma encryptionStep_run_full (X : CharmState)
    (hu : all_units_unified X = true)
    (hq : all_units_quorum (quorumTargetWrite X) = true) :
    encryptionStep X = { X with cluster := { X.cluster with
      quorum := encryptionTarget X, switchingEncryption := false } } := by
  unfold encryptionStep
  rw [if_pos hu, if_pos hq]
  rfl

lemma encryptionStep_run_half (X : CharmState)
    (hu : all_units_unified X = true)
    (hq : ¬ all_units_quorum (quorumTargetWrite X) = true) :
    encryptionStep X = { X with cluster := { X.cluster with
      quorum := encryptionTarget X } } := by
  unfold encryptionStep
  rw [if_pos hu, if_neg hq]
  rfl

lemma encryptionStep_run_none (X : CharmState)
    (hu : ¬ all_units_unified X = true) :
    encryptionStep X = X := by
  unfold encryptionStep
  rw [if_neg hu]

lemma update_client_data_run (X : CharmState) (hl : X.isLeader = true)
    (hr : isActiveStatus X.readyStatus = true) :
    (update_client_data X).1 = { X with
      clients := (X.clients.map
        (fun c => if clientSkip X.currentJaas c then c else publishClient c)),
      status := X.readyStatus } := by
  unfold update_client_data setStatusS
  rw [hl]
  simp only [Bool.not_true, Bool.false_eq_true, if_false, hr, Bool.not_true]

lemma update_client_data_run_notready (X : CharmState) (hl : X.isLeader = true)
    (hr : isActiveStatus X.readyStatus = false) :
    (update_client_data X).1 = setStatusS X.readyStatus X := by
  unfold update_client_data
  rw [hl]
  simp only [Bool.not_true, Bool.false_eq_true, if_false, hr, Bool.not_false, if_true]

lemma all_units_unified_congr (A B : CharmState)
    (h1 : A.unitServer = B.unitServer) (h2 : A.otherServers = B.otherServers) :
    all_units_unified A = all_units_unified B := by
  unfold all_units_unified servers
  rw [h1, h2]

lemma all_units_quorum_congr (A B : CharmState)
    (h1 : A.unitServer = B.unitServer) (h2 : A.otherServers = B.otherServers)
    (h3 : A.cluster.quorum = B.cluster.quorum) :
    all_units_quorum A = all_units_quorum B := by
  unfold all_units_quorum servers
  rw [h1, h2, h3]

lemma publish_step_idem (jaas : String) (c : ClientApp) :
    (if clientSkip jaas (if clientSkip jaas c then c else publishClient c)
        then (if clientSkip jaas c then c else publishClient c)
        else publishClient (if clientSkip jaas c then c else publishClient c))
      = (if clientSkip jaas c then c else publishClient c) := by
  by_cases hsk : clientSkip jaas c = true
  · rw [if_pos hsk, if_pos hsk]
  · rw [if_neg hsk]
    have hsk2 : clientSkip jaas (publishClient c) = clientSkip jaas c := rfl
    have hsk3 : ¬ clientSkip jaas (publishClient c) = true := by
      rw [hsk2]
      exact hsk
    rw [if_neg hsk3]
    rfl

lemma publish_map_idem (jaas : String) (l : List ClientApp) :
    ((l.map (fun c => if clientSkip jaas c then c else publishClient c)).map
      (fun c => if clientSkip jaas c then c else publishClient c))
    = l.map (fun c => if clientSkip jaas c then c else publishClient c) := by
  induction l with
  | nil => rfl
  | cons a t ih =>
    simp only [List.map_cons]
    rw [ih, publish_step_idem]

lemma update_quorum_fix (S2 : CharmState) (e : Event) (y : Status)
    (hc : (!S2.isLeader || e.departingIsSelf) = false) :
    (update_quorum { (update_quorum S2 e).1 with status := y } e).1
      = (update_quorum S2 e).1 := by
  have hl : S2.isLeader = true := by
    revert hc
    cases S2.isLeader <;> simp
  obtain ⟨m, hqss⟩ := quorumSyncState_shape S2 e
  by_cases ha : isActiveStatus S2.stableStatus = true
  case neg =>
    have ha' : isActiveStatus S2.stableStatus = false := by
      revert ha
      cases isActiveStatus S2.stableStatus <;> simp
    have hU : (update_quorum S2 e).1
        = setStatusS S2.stableStatus (quorumSyncState S2 e) := by
      unfold update_quorum
      simp only [hc, Bool.false_eq_true, if_false, ha', Bool.not_false, if_true]
    rw [hU, hqss]
    set T : CharmState := { setStatusS S2.stableStatus
      { S2 with cluster := { S2.cluster with membership := m } } with status := y } with hT
    have hcT : (!T.isLeader || e.departingIsSelf) = false := hc
    have haT : isActiveStatus T.stableStatus = false := ha'
    have hfix : quorumSyncState T e = T := by
      apply quorumSyncState_fix S2 T e
      · rw [hqss]
        rfl
      · rfl
      · rfl
      · rfl
    unfold update_quorum
    simp only [hcT, Bool.false_eq_true, if_false, haT, Bool.not_false, if_true]
    rw [hfix]
    rfl
  case pos =>
    have hU : (update_quorum S2 e).1
        = (update_client_data (encryptionStep (setStatusS S2.stableStatus
            (quorumSyncState S2 e)))).1 := by
      unfold update_quorum
      simp only [hc, Bool.false_eq_true, if_false, ha, Bool.not_true, if_false]
    rw [hU, hqss]
    set Z : CharmState := setStatusS S2.stableStatus
      { S2 with cluster := { S2.cluster with membership := m } } with hZ
    by_cases hu1 : all_units_unified Z = true
    case pos =>
      by_cases hq1 : all_units_quorum (quorumTargetWrite Z) = true
      case pos =>
        rw [encryptionStep_run_full Z hu1 hq1]
        set W : CharmState := { Z with cluster := { Z.cluster with
          quorum := encryptionTarget Z, switchingEncryption := false } } with hW
        have hlW : W.isLeader = true := hl
        by_cases hr1 : isActiveStatus S2.readyStatus = true
        case pos =>
          have hrW : isActiveStatus W.readyStatus = true := hr1
          rw [update_client_data_run W hlW hrW]
          set U : CharmState := { W with
            clients := (W.clients.map (fun c =>
              if clientSkip W.currentJaas c then c else publishClient c)),
            status := W.readyStatus } with hU2
          set T : CharmState := { U with status := y } with hT
          have hcT : (!T.isLeader || e.departingIsSelf) = false := hc
          have haT : isActiveStatus T.stableStatus = true := ha
          have hfix : quorumSyncState T e = T := by
            apply quorumSyncState_fix S2 T e
            · rw [hqss]
              rfl
            · rfl
            · rfl
            · rfl
          unfold update_quorum
          simp only [hcT, Bool.false_eq_true, if_false, haT, Bool.not_true, if_false]
          rw [hfix]
          have hu2 : all_units_unified (setStatusS T.stableStatus T) = true := by
            rw [all_units_unified_congr (setStatusS T.stableStatus T) Z rfl rfl]
            exact hu1
          have hq2 : all_units_quorum
              (quorumTargetWrite (setStatusS T.stableStatus T)) = true := by
            rw [all_units_quorum_congr (quorumTargetWrite (setStatusS T.stableStatus T))
              (quorumTargetWrite Z) rfl rfl rfl]
            exact hq1
          rw [encryptionStep_run_full _ hu2 hq2]
          set X2 : CharmState := { setStatusS T.stableStatus T with cluster :=
            { (setStatusS T.stableStatus T).cluster with
              quorum := encryptionTarget (setStatusS T.stableStatus T),
              switchingEncryption := false } } with hX2
          have hX2l : X2.isLeader = true := hl
          have hX2r : isActiveStatus X2.readyStatus = true := hr1
          rw [update_client_data_run X2 hX2l hX2r]
          rw [hU2]
          congr 1
          show ((W.clients.map (fun c =>
              if clientSkip W.currentJaas c then c else publishClient c)).map
            (fun c => if clientSkip W.currentJaas c then c else publishClient c))
            = W.clients.map (fun c =>
              if clientSkip W.currentJaas c then c else publishClient c)
          exact publish_map_idem W.currentJaas W.clients
        case neg =>
          have hr1f : isActiveStatus S2.readyStatus = false := by
            revert hr1
            cases isActiveStatus S2.readyStatus <;> simp
          have hrW : isActiveStatus W.readyStatus = false := hr1f
          rw [update_client_data_run_notready W hlW hrW]
          set T : CharmState := { setStatusS W.readyStatus W with status := y } with hT
          have hcT : (!T.isLeader || e.departingIsSelf) = false := hc
          have haT : isActiveStatus T.stableStatus = true := ha
          have hfix : quorumSyncState T e = T := by
            apply quorumSyncState_fix S2 T e
            · rw [hqss]
              rfl
            · rfl
            · rfl
            · rfl
          unfold update_quorum
          simp only [hcT, Bool.false_eq_true, if_false, haT, Bool.not_true, if_false]
          rw [hfix]
          have hu2 : all_units_unified (setStatusS T.stableStatus T) = true := by
            rw [all_units_unified_congr (setStatusS T.stableStatus T) Z rfl rfl]
            exact hu1
          have hq2 : all_units_quorum
              (quorumTargetWrite (setStatusS T.stableStatus T)) = true := by
            rw [all_units_quorum_congr (quorumTargetWrite (setStatusS T.stableStatus T))
              (quorumTargetWrite Z) rfl rfl rfl]
            exact hq1
          rw [encryptionStep_run_full _ hu2 hq2]
          set X2 : CharmState := { setStatusS T.stableStatus T with cluster :=
            { (setStatusS T.stableStatus T).cluster with
              quorum := encryptionTarget (setStatusS T.stableStatus T),
              switchingEncryption := false } } with hX2
          have hX2l : X2.isLeader = true := hl
          have hX2r : isActiveStatus X2.readyStatus = false := hr1f
          rw [update_client_data_run_notready X2 hX2l hX2r]
          rfl
      case neg =>
        rw [encryptionStep_run_half Z hu1 hq1]
        set W : CharmState := { Z with cluster := { Z.cluster with
          quorum := encryptionTarget Z } } with hW
        have hlW : W.isLeader = true := hl
        by_cases hr1 : isActiveStatus S2.readyStatus = true
        case pos =>
          have hrW : isActiveStatus W.readyStatus = true := hr1
          rw [update_client_data_run W hlW hrW]
          set U : CharmState := { W with
            clients := (W.clients.map (fun c =>
              if clientSkip W.currentJaas c then c else publishClient c)),
            status := W.readyStatus } with hU2
          set T : CharmState := { U with status := y } with hT
          have hcT : (!T.isLeader || e.departingIsSelf) = false := hc
          have haT : isActiveStatus T.stableStatus = true := ha
          have hfix : quorumSyncState T e = T := by
            apply quorumSyncState_fix S2 T e
            · rw [hqss]
              rfl
            · rfl
            · rfl
            · rfl
          unfold update_quorum
          simp only [hcT, Bool.false_eq_true, if_false, haT, Bool.not_true, if_false]
          rw [hfix]
          have hu2 : all_units_unified (setStatusS T.stableStatus T) = true := by
            rw [all_units_unified_congr (setStatusS T.stableStatus T) Z rfl rfl]
            exact hu1
          have hq2 : ¬ all_units_quorum
              (quorumTargetWrite (setStatusS T.stableStatus T)) = true := by
            rw [all_units_quorum_congr (quorumTargetWrite (setStatusS T.stableStatus T))
              (quorumTargetWrite Z) rfl rfl rfl]
            exact hq1
          rw [encryptionStep_run_half _ hu2 hq2]
          set X2 : CharmState := { setStatusS T.stableStatus T with cluster :=
            { (setStatusS T.stableStatus T).cluster with
              quorum := encryptionTarget (setStatusS T.stableStatus T) } } with hX2
          have hX2l : X2.isLeader = true := hl
          have hX2r : isActiveStatus X2.readyStatus = true := hr1
          rw [update_client_data_run X2 hX2l hX2r]
          rw [hU2]
          congr 1
          show ((W.clients.map (fun c =>
              if clientSkip W.currentJaas c then c else publishClient c)).map
            (fun c => if clientSkip W.currentJaas c then c else publishClient c))
            = W.clients.map (fun c =>
              if clientSkip W.currentJaas c then c else publishClient c)
          exact publish_map_idem W.currentJaas W.clients
        case neg =>
          have hr1f : isActiveStatus S2.readyStatus = false := by
            revert hr1
            cases isActiveStatus S2.readyStatus <;> simp
          have hrW : isActiveStatus W.readyStatus = false := hr1f
          rw [update_client_data_run_notready W hlW hrW]
          set T : CharmState := { setStatusS W.readyStatus W with status := y } with hT
          have hcT : (!T.isLeader || e.departingIsSelf) = false := hc
          have haT : isActiveStatus T.stableStatus = true := ha
          have hfix : quorumSyncState T e = T := by
            apply quorumSyncState_fix S2 T e
            · rw [hqss]
              rfl
            · rfl
            · rfl
            · rfl
          unfold update_quorum
          simp only [hcT, Bool.false_eq_true, if_false, haT, Bool.not_true, if_false]
          rw [hfix]
          have hu2 : all_units_unified (setStatusS T.stableStatus T) = true := by
            rw [all_units_unified_congr (setStatusS T.stableStatus T) Z rfl rfl]
            exact hu1
          have hq2 : ¬ all_units_quorum
              (quorumTargetWrite (setStatusS T.stableStatus T)) = true := by
            rw [all_units_quorum_congr (quorumTargetWrite (setStatusS T.stableStatus T))
              (quorumTargetWrite Z) rfl rfl rfl]
            exact hq1
          rw [encryptionStep_run_half _ hu2 hq2]
          set X2 : CharmState := { setStatusS T.stableStatus T with cluster :=
            { (setStatusS T.stableStatus T).cluster with
              quorum := encryptionTarget (setStatusS T.stableStatus T) } } with hX2
          have hX2l : X2.isLeader = true := hl
          have hX2r : isActiveStatus X2.readyStatus = false := hr1f
          rw [update_client_data_run_notready X2 hX2l hX2r]
          rfl
    case neg =>
      rw [encryptionStep_run_none Z hu1]
      have hlZ : Z.isLeader = true := hl
      by_cases hr1 : isActiveStatus S2.readyStatus = true
      case pos =>
        have hrZ : isActiveStatus Z.readyStatus = true := hr1
        rw [update_client_data_run Z hlZ hrZ]
        set U : CharmState := { Z with
          clients := (Z.clients.map (fun c =>
            if clientSkip Z.currentJaas c then c else publishClient c)),
          status := Z.readyStatus } with hU2
        set T : CharmState := { U with status := y } with hT
        have hcT : (!T.isLeader || e.departingIsSelf) = false := hc
        have haT : isActiveStatus T.stableStatus = true := ha
        have hfix : quorumSyncState T e = T := by
          apply quorumSyncState_fix S2 T e
          · rw [hqss]
            rfl
          · rfl
          · rfl
          · rfl
        unfold update_quorum
        simp only [hcT, Bool.false_eq_true, if_false, haT, Bool.not_true, if_false]
        rw [hfix]
        have hu2 : ¬ all_units_unified (setStatusS T.stableStatus T) = true := by
          rw [all_units_unified_congr (setStatusS T.stableStatus T) Z rfl rfl]
          exact hu1
        rw [encryptionStep_run_none _ hu2]
        have hX2l : (setStatusS T.stableStatus T).isLeader = true := hl
        have hX2r : isActiveStatus (setStatusS T.stableStatus T).readyStatus = true := hr1
        rw [update_client_data_run _ hX2l hX2r]
        rw [hU2]
        congr 1
        show ((Z.clients.map (fun c =>
            if clientSkip Z.currentJaas c then c else publishClient c)).map
          (fun c => if clientSkip Z.currentJaas c then c else publishClient c))
          = Z.clients.map (fun c =>
            if clientSkip Z.currentJaas c then c else publishClient c)
        exact publish_map_idem Z.currentJaas Z.clients
      case neg =>
        have hr1f : isActiveStatus S2.readyStatus = false := by
          revert hr1
          cases isActiveStatus S2.readyStatus <;> simp
        have hrZ : isActiveStatus Z.readyStatus = false := hr1f
        rw [update_client_data_run_notready Z hlZ hrZ]
        set T : CharmState := { setStatusS Z.readyStatus Z with status := y } with hT
        have hcT : (!T.isLeader || e.departingIsSelf) = false := hc
        have haT : isActiveStatus T.stableStatus = true := ha
        have hfix : quorumSyncState T e = T := by
          apply quorumSyncState_fix S2 T e
          · rw [hqss]
            rfl
          · rfl
          · rfl
          · rfl
        unfold update_quorum
        simp only [hcT, Bool.false_eq_true, if_false, haT, Bool.not_true, if_false]
        rw [hfix]
        have hu2 : ¬ all_units_unified (setStatusS T.stableStatus T) = true := by
          rw [all_units_unified_congr (setStatusS T.stableStatus T) Z rfl rfl]
          exact hu1
        rw [encryptionStep_run_none _ hu2]
        have hX2l : (setStatusS T.stableStatus T).isLeader = true := hl
        have hX2r : isActiveStatus (setStatusS T.stableStatus T).readyStatus = false := hr1f
        rw [update_client_data_run_notready _ hX2l hX2r]
        rfl

/-! ### Replay helpers for the full handler -/

lemma setStatusS_noop (k : Status) (S : CharmState) (h : S.status = k) :
    setStatusS k S = S := by
  unfold setStatusS
  rw [← h]

lemma setStatusS_collapse (a b : Status) (S : CharmState) :
    setStatusS a (setStatusS b S) = setStatusS a S := rfl

lemma init_server_shape (S : CharmState) :
    ∃ us st, (init_server S).1 = { S with unitServer := us, status := st } := by
  unfold init_server
  split_ifs
  · exact ⟨S.unitServer, Status.noPasswords, rfl⟩
  · exact ⟨S.unitServer, Status.notAllRelated, rfl⟩
  · exact ⟨S.unitServer, Status.notUnitTurn, rfl⟩
  · exact ⟨_, S.status, rfl⟩
  · exact ⟨_, S.status, rfl⟩

lemma initStage_shape (S : CharmState) :
    ∃ us st, (initStage S).1 = { S with unitServer := us, status := st } := by
  unfold initStage
  split
  · exact ⟨S.unitServer, S.status, rfl⟩
  · exact init_server_shape S

lemma update_external_services_shape (S : CharmState) :
    ∃ st, (update_external_services S).1 = { S with status := st } := by
  unfold update_external_services
  split
  · exact ⟨S.status, rfl⟩
  · split
    · exact ⟨S.status, rfl⟩
    · exact ⟨Status.serviceUnavailable, rfl⟩
    · exact ⟨Status.serviceUnavailable, rfl⟩

lemma disconnect_clients_shape (S : CharmState) :
    ∃ cls, disconnect_clients S = { S with clients := cls } := by
  unfold disconnect_clients
  split
  · exact ⟨S.clients, rfl⟩
  · exact ⟨_, rfl⟩

lemma ext_fst_noleader (X : CharmState) (h : X.isLeader = false) :
    (update_external_services X).1 = X := by
  unfold update_external_services
  rw [h]
  rfl

lemma ext_fst_off (X : CharmState) (hl : X.isLeader = true)
    (he : X.exposeExternal = ExposeExternal.off) :
    (update_external_services X).1 = X := by
  unfold update_external_services
  rw [hl, he]
  rfl

lemma ext_fst_nodePort (X : CharmState) (hl : X.isLeader = true)
    (he : X.exposeExternal = ExposeExternal.nodePort) :
    (update_external_services X).1 = setStatusS Status.serviceUnavailable X := by
  unfold update_external_services
  rw [hl, he]
  rfl

lemma ext_fst_lb (X : CharmState) (hl : X.isLeader = true)
    (he : X.exposeExternal = ExposeExternal.loadBalancer) :
    (update_external_services X).1 = setStatusS Status.serviceUnavailable X := by
  unfold update_external_services
  rw [hl, he]
  rfl

lemma disc_run_noleader (X : CharmState) (h : X.isLeader = false) :
    disconnect_clients X = X := by
  unfold disconnect_clients
  rw [h]
  rfl

lemma disconnect_clients_idem (X : CharmState) :
    disconnect_clients (disconnect_clients X) = disconnect_clients X := by
  by_cases h : X.isLeader = true
  · have hD : disconnect_clients X = { X with clients := (X.clients.map
        (fun c => { c with bag := { c.bag with endpoints := "" } })) } := by
      unfold disconnect_clients
      rw [h]
      rfl
    rw [hD]
    unfold disconnect_clients
    dsimp only
    rw [h]
    simp only [Bool.not_true, Bool.false_eq_true, if_false]
    congr 1
    rw [List.map_map]
    apply List.map_congr_left
    intro c _
    rfl
  · have h' : X.isLeader = false := by
      revert h
      cases X.isLeader <;> simp
    rw [disc_run_noleader X h', disc_run_noleader X h']

lemma sansMismatch_congr (A B : CharmState)
    (h1 : A.unitServer.certificate = B.unitServer.certificate)
    (h2 : A.certSans = B.certSans)
    (h3 : A.expectedSans = B.expectedSans) :
    sansMismatch A = sansMismatch B := by
  unfold sansMismatch get_current_sans
  rw [h1, h2, h3]

lemma turnBlocked_congr (A B : CharmState)
    (h1 : A.nextServer = B.nextServer)
    (h2 : A.unitComponent = B.unitComponent) :
    turnBlocked A = turnBlocked B := by
  unfold turnBlocked
  rw [h1, h2]

lemma afterQuorum_shape (S3 : CharmState) (e : Event) :
    ∃ st, (afterQuorum S3 e).1 = { S3 with status := st } := by
  unfold afterQuorum
  dsimp only
  split_ifs <;>
    first
      | exact ⟨S3.status, rfl⟩
      | exact ⟨Status.serviceNotRunning, rfl⟩
      | exact ⟨Status.serviceUnhealthy, rfl⟩
      | exact ⟨Status.active, rfl⟩

lemma update_quorum_cluster_shape (S : CharmState) (e : Event) :
    ∃ m q sw, (update_quorum S e).1.cluster
      = { S.cluster with membership := m, quorum := q, switchingEncryption := sw } := by
  unfold update_quorum
  obtain ⟨m, hm⟩ := quorumSyncState_shape S e
  split_ifs
  · exact ⟨S.cluster.membership, S.cluster.quorum, S.cluster.switchingEncryption, rfl⟩
  · rw [hm]
    exact ⟨m, S.cluster.quorum, S.cluster.switchingEncryption, rfl⟩
  · dsimp only
    rw [hm]
    obtain ⟨q, sw, hq⟩ := encryptionStep_shape
      (setStatusS S.stableStatus { S with cluster := { S.cluster with membership := m } })
    rw [hq, update_client_data_cluster]
    exact ⟨m, q, sw, rfl⟩

lemma initStage_fst_of_started (X : CharmState) (h : X.unitServer.started = true) :
    (initStage X).1 = X := by
  unfold initStage
  rw [h]
  rfl

lemma initStage_fst_notstarted (X : CharmState) (h : X.unitServer.started = false) :
    (initStage X).1 = (init_server X).1 := by
  unfold initStage
  rw [h]
  rfl

lemma init_server_fst_nocred (X : CharmState)
    (h : X.cluster.hasInternalCredentials = false) :
    (init_server X).1 = setStatusS Status.noPasswords X := by
  unfold init_server
  rw [h]
  rfl

lemma init_server_fst_notrelated (X : CharmState)
    (h1 : X.cluster.hasInternalCredentials = true) (h2 : X.allUnitsRelated = false) :
    (init_server X).1 = setStatusS Status.notAllRelated X := by
  unfold init_server
  rw [h1, h2]
  rfl

lemma init_server_fst_turn (X : CharmState)
    (h1 : X.cluster.hasInternalCredentials = true) (h2 : X.allUnitsRelated = true)
    (h3 : turnBlocked X = true) :
    (init_server X).1 = setStatusS Status.notUnitTurn X := by
  unfold init_server
  rw [h1, h2, h3]
  rfl

lemma init_server_fst_success (X : CharmState)
    (h1 : X.cluster.hasInternalCredentials = true) (h2 : X.allUnitsRelated = true)
    (h3 : turnBlocked X = false) :
    (init_server X).1 = { X with unitServer := { X.unitServer with
        started := true,
        unified := X.cluster.switchingEncryption,
        quorum := X.cluster.quorum } } := by
  unfold init_server
  rw [h1, h2, h3]
  rfl

/-- Re-running the init stage on a state whose unit server equals the first
run's post-init server and whose guard inputs agree changes at most the
status field. -/
lemma initStage_replay (S T : CharmState)
    (hus : T.unitServer = (initStage S).1.unitServer)
    (hcred : T.cluster.hasInternalCredentials = S.cluster.hasInternalCredentials)
    (hrel : T.allUnitsRelated = S.allUnitsRelated)
    (hnext : T.nextServer = S.nextServer)
    (hcomp : T.unitComponent = S.unitComponent) :
    ∃ st, (initStage T).1 = { T with status := st }
      ∧ (st = T.status ∨ st = (initStage S).1.status) := by
  by_cases hst : S.unitServer.started = true
  · have hTst : T.unitServer.started = true := by
      rw [hus, initStage_fst_of_started S hst]
      exact hst
    exact ⟨T.status, by rw [initStage_fst_of_started T hTst], Or.inl rfl⟩
  · have hst' : S.unitServer.started = false := by
      revert hst
      cases S.unitServer.started <;> simp
    by_cases hc : S.cluster.hasInternalCredentials = true
    · by_cases hr : S.allUnitsRelated = true
      · by_cases htb : turnBlocked S = true
        · have hTst : T.unitServer.started = false := by
            rw [hus, initStage_fst_notstarted S hst', init_server_fst_turn S hc hr htb]
            exact hst'
          have hTc : T.cluster.hasInternalCredentials = true := by rw [hcred]; exact hc
          have hTr : T.allUnitsRelated = true := by rw [hrel]; exact hr
          have hTtb : turnBlocked T = true := by
            rw [turnBlocked_congr T S hnext hcomp]
            exact htb
          refine ⟨Status.notUnitTurn, ?_, Or.inr ?_⟩
          · rw [initStage_fst_notstarted T hTst, init_server_fst_turn T hTc hTr hTtb]
            rfl
          · rw [initStage_fst_notstarted S hst', init_server_fst_turn S hc hr htb]
            rfl
        · have htb' : turnBlocked S = false := by
            revert htb
            cases turnBlocked S <;> simp
          have hTst : T.unitServer.started = true := by
            rw [hus, initStage_fst_notstarted S hst',
              init_server_fst_success S hc hr htb']
          exact ⟨T.status, by rw [initStage_fst_of_started T hTst], Or.inl rfl⟩
      · have hr' : S.allUnitsRelated = false := by
          revert hr
          cases S.allUnitsRelated <;> simp
        have hTst : T.unitServer.started = false := by
          rw [hus, initStage_fst_notstarted S hst', init_server_fst_notrelated S hc hr']
          exact hst'
        have hTc : T.cluster.hasInternalCredentials = true := by rw [hcred]; exact hc
        have hTr : T.allUnitsRelated = false := by rw [hrel]; exact hr'
        refine ⟨Status.notAllRelated, ?_, Or.inr ?_⟩
        · rw [initStage_fst_notstarted T hTst, init_server_fst_notrelated T hTc hTr]
          rfl
        · rw [initStage_fst_notstarted S hst', init_server_fst_notrelated S hc hr']
          rfl
    · have hc' : S.cluster.hasInternalCredentials = false := by
        revert hc
        cases S.cluster.hasInternalCredentials <;> simp
      have hTst : T.unitServer.started = false := by
        rw [hus, initStage_fst_notstarted S hst', init_server_fst_nocred S hc']
        exact hst'
      have hTc : T.cluster.hasInternalCredentials = false := by rw [hcred]; exact hc'
      refine ⟨Status.noPasswords, ?_, Or.inr ?_⟩
      · rw [initStage_fst_notstarted T hTst, init_server_fst_nocred T hTc]
        rfl
      · rw [initStage_fst_notstarted S hst', init_server_fst_nocred S hc']
        rfl

/-- Re-running the external-service update and the client disconnect on the
first run's output, with at most the status field perturbed to a status seen
during the first run, reproduces the first run's output. -/
lemma extDisc_replay (X T : CharmState)
    (hT : T = disconnect_clients (update_external_services X).1)
    (st : Status) (hst : st = T.status ∨ st = X.status) :
    disconnect_clients (update_external_services { T with status := st }).1 = T := by
  by_cases hl : X.isLeader = true
  · rcases hexp : X.exposeExternal with _ | _ | _
    · rw [ext_fst_off X hl hexp] at hT
      obtain ⟨cls, hd⟩ := disconnect_clients_shape X
      rw [hd] at hT
      have hsteq : st = T.status := by
        rcases hst with h | h
        · exact h
        · rw [h, hT]
      rw [hsteq]
      show disconnect_clients (update_external_services T).1 = T
      have hTl : T.isLeader = true := by rw [hT]; exact hl
      have hTe : T.exposeExternal = ExposeExternal.off := by rw [hT]; exact hexp
      rw [ext_fst_off T hTl hTe, hT, ← hd, disconnect_clients_idem]
    · rw [ext_fst_nodePort X hl hexp] at hT
      obtain ⟨cls, hd⟩ := disconnect_clients_shape (setStatusS Status.serviceUnavailable X)
      rw [hd] at hT
      have hTl : T.isLeader = true := by rw [hT]; exact hl
      have hTe : T.exposeExternal = ExposeExternal.nodePort := by rw [hT]; exact hexp
      have hTs : T.status = Status.serviceUnavailable := by rw [hT]; rfl
      have hT'l : ({ T with status := st } : CharmState).isLeader = true := hTl
      have hT'e : ({ T with status := st } : CharmState).exposeExternal
          = ExposeExternal.nodePort := hTe
      rw [ext_fst_nodePort _ hT'l hT'e]
      show disconnect_clients { T with status := Status.serviceUnavailable } = T
      rw [← hTs]
      show disconnect_clients T = T
      rw [hT, ← hd, disconnect_clients_idem]
    · rw [ext_fst_lb X hl hexp] at hT
      obtain ⟨cls, hd⟩ := disconnect_clients_shape (setStatusS Status.serviceUnavailable X)
      rw [hd] at hT
      have hTl : T.isLeader = true := by rw [hT]; exact hl
      have hTe : T.exposeExternal = ExposeExternal.loadBalancer := by rw [hT]; exact hexp
      have hTs : T.status = Status.serviceUnavailable := by rw [hT]; rfl
      have hT'l : ({ T with status := st } : CharmState).isLeader = true := hTl
      have hT'e : ({ T with status := st } : CharmState).exposeExternal
          = ExposeExternal.loadBalancer := hTe
      rw [ext_fst_lb _ hT'l hT'e]
      show disconnect_clients { T with status := Status.serviceUnavailable } = T
      rw [← hTs]
      show disconnect_clients T = T
      rw [hT, ← hd, disconnect_clients_idem]
  · have hl' : X.isLeader = false := by
      revert hl
      cases X.isLeader <;> simp
    rw [ext_fst_noleader X hl', disc_run_noleader X hl'] at hT
    subst hT
    have hst' : st = T.status := by rcases hst with h | h <;> exact h
    subst hst'
    show disconnect_clients (update_external_services T).1 = T
    rw [ext_fst_noleader T hl', disc_run_noleader T hl']

/-- Idempotence of the endpoints-unknown branch of the handler: a second
pass through init, external-service update and client disconnect leaves the
first pass's state unchanged. -/
lemma noEndpoints_idem (S T : CharmState)
    (hT : T = disconnect_clients (update_external_services (initStage S).1).1) :
    disconnect_clients (update_external_services (initStage T).1).1 = T := by
  obtain ⟨usI, stI, hI⟩ := initStage_shape S
  obtain ⟨stE, hE⟩ := update_external_services_shape (initStage S).1
  obtain ⟨cls, hD⟩ := disconnect_clients_shape (update_external_services (initStage S).1).1
  have hTlit : T = { (initStage S).1 with status := stE, clients := cls } := by
    rw [hT, hD, hE]
  have h1 : T.unitServer = (initStage S).1.unitServer := by
    rw [hTlit]
  have h2 : T.cluster.hasInternalCredentials = S.cluster.hasInternalCredentials := by
    rw [hTlit, hI]
  have h3 : T.allUnitsRelated = S.allUnitsRelated := by
    rw [hTlit, hI]
  have h4 : T.nextServer = S.nextServer := by
    rw [hTlit, hI]
  have h5 : T.unitComponent = S.unitComponent := by
    rw [hTlit, hI]
  obtain ⟨st2, hR, hDisj⟩ := initStage_replay S T h1 h2 h3 h4 h5
  rw [hR]
  exact extDisc_replay (initStage S).1 T hT st2 hDisj

/-- Re-running the external-service update on its own output, with at most
the status perturbed to a status seen during the first run, reproduces the
first run's output. -/
lemma ext_replay (X T : CharmState)
    (hT : T = (update_external_services X).1)
    (st : Status) (hst : st = T.status ∨ st = X.status) :
    (update_external_services { T with status := st }).1 = T := by
  by_cases hl : X.isLeader = true
  · rcases hexp : X.exposeExternal with _ | _ | _
    · rw [ext_fst_off X hl hexp] at hT
      subst hT
      have hst' : st = T.status := by rcases hst with h | h <;> exact h
      subst hst'
      show (update_external_services T).1 = T
      exact ext_fst_off T hl hexp
    · rw [ext_fst_nodePort X hl hexp] at hT
      have hTl : T.isLeader = true := by rw [hT]; exact hl
      have hTe : T.exposeExternal = ExposeExternal.nodePort := by rw [hT]; exact hexp
      have hTs : T.status = Status.serviceUnavailable := by rw [hT]; rfl
      have hT'l : ({ T with status := st } : CharmState).isLeader = true := hTl
      have hT'e : ({ T with status := st } : CharmState).exposeExternal
          = ExposeExternal.nodePort := hTe
      rw [ext_fst_nodePort _ hT'l hT'e]
      show ({ T with status := Status.serviceUnavailable } : CharmState) = T
      rw [← hTs]
    · rw [ext_fst_lb X hl hexp] at hT
      have hTl : T.isLeader = true := by rw [hT]; exact hl
      have hTe : T.exposeExternal = ExposeExternal.loadBalancer := by rw [hT]; exact hexp
      have hTs : T.status = Status.serviceUnavailable := by rw [hT]; rfl
      have hT'l : ({ T with status := st } : CharmState).isLeader = true := hTl
      have hT'e : ({ T with status := st } : CharmState).exposeExternal
          = ExposeExternal.loadBalancer := hTe
      rw [ext_fst_lb _ hT'l hT'e]
      show ({ T with status := Status.serviceUnavailable } : CharmState) = T
      rw [← hTs]
  · have hl' : X.isLeader = false := by
      revert hl
      cases X.isLeader <;> simp
    rw [ext_fst_noleader X hl'] at hT
    subst hT
    have hst' : st = T.status := by rcases hst with h | h <;> exact h
    subst hst'
    show (update_external_services T).1 = T
    exact ext_fst_noleader T hl'

/-- On a non-departing event the post-quorum tail ignores the incoming
status: it overwrites it from the liveness and health checks. -/
lemma afterQuorum_fst_status (B : CharmState) (y : Status) (e : Event)
    (hd : e.departingIsSelf = false) :
    (afterQuorum { B with status := y } e).1 = (afterQuorum B e).1 := by
  unfold afterQuorum
  simp only [hd, Bool.false_eq_true, if_false]
  dsimp only
  split_ifs <;> rfl

lemma update_quorum_fst_departing (B : CharmState) (e : Event)
    (hd : e.departingIsSelf = true) : (update_quorum B e).1 = B := by
  unfold update_quorum
  have hc : (!B.isLeader || e.departingIsSelf) = true := by rw [hd]; simp
  rw [if_pos hc]

lemma update_quorum_fst_notleader (B : CharmState) (e : Event)
    (hl : B.isLeader = false) : (update_quorum B e).1 = B := by
  unfold update_quorum
  have hc : (!B.isLeader || e.departingIsSelf) = true := by rw [hl]; simp
  rw [if_pos hc]

lemma afterQuorum_fst_departing (B : CharmState) (e : Event)
    (hd : e.departingIsSelf = true) : (afterQuorum B e).1 = B := by
  unfold afterQuorum
  rw [hd]
  rfl

/-- Idempotence of the endpoints-known main tail of the handler: re-running
init, external services, quorum update and the post-quorum checks on the
first pass's result reproduces it exactly. -/
lemma mainTail_idem (S T : CharmState) (e : Event)
    (hT : T = (afterQuorum (update_quorum
        (update_external_services (initStage S).1).1 e).1 e).1) :
    (afterQuorum (update_quorum
        (update_external_services (initStage T).1).1 e).1 e).1 = T := by
  obtain ⟨usI, stI, hI⟩ := initStage_shape S
  obtain ⟨stE, hE⟩ := update_external_services_shape (initStage S).1
  obtain ⟨cU, clsU, stU, hU⟩ :=
    update_quorum_shape (update_external_services (initStage S).1).1 e
  obtain ⟨zb, hZ⟩ :=
    afterQuorum_shape (update_quorum (update_external_services (initStage S).1).1 e).1 e
  have hTlit : T = { (update_quorum (update_external_services (initStage S).1).1 e).1
      with status := zb } := by
    rw [hT, hZ]
  have h1 : T.unitServer = (initStage S).1.unitServer := by
    rw [hTlit, hU]
    exact update_external_services_unitServer _
  have h2 : T.cluster.hasInternalCredentials = S.cluster.hasInternalCredentials := by
    obtain ⟨m, q, sw, hC⟩ :=
      update_quorum_cluster_shape (update_external_services (initStage S).1).1 e
    rw [hTlit]
    show (update_quorum (update_external_services (initStage S).1).1 e).1.cluster.hasInternalCredentials
      = S.cluster.hasInternalCredentials
    rw [hC]
    show (update_external_services (initStage S).1).1.cluster.hasInternalCredentials
      = S.cluster.hasInternalCredentials
    rw [hE, hI]
  have h3 : T.allUnitsRelated = S.allUnitsRelated := by
    rw [hTlit, hU]
    show (update_external_services (initStage S).1).1.allUnitsRelated = S.allUnitsRelated
    rw [hE, hI]
  have h4 : T.nextServer = S.nextServer := by
    rw [hTlit, hU]
    show (update_external_services (initStage S).1).1.nextServer = S.nextServer
    rw [hE, hI]
  have h5 : T.unitComponent = S.unitComponent := by
    rw [hTlit, hU]
    show (update_external_services (initStage S).1).1.unitComponent = S.unitComponent
    rw [hE, hI]
  obtain ⟨st2, hR, hDisj⟩ := initStage_replay S T h1 h2 h3 h4 h5
  rw [hR]
  by_cases hdep : e.departingIsSelf = true
  · have hTS2 : T = (update_external_services (initStage S).1).1 := by
      rw [hT, update_quorum_fst_departing _ e hdep, afterQuorum_fst_departing _ e hdep]
    rw [update_quorum_fst_departing _ e hdep, afterQuorum_fst_departing _ e hdep]
    exact ext_replay (initStage S).1 T hTS2 st2 hDisj
  · have hdep' : e.departingIsSelf = false := by
      revert hdep
      cases e.departingIsSelf <;> simp
    obtain ⟨stE2, hE2⟩ := update_external_services_shape ({ T with status := st2 })
    rw [hE2]
    by_cases hld : (update_external_services (initStage S).1).1.isLeader = true
    · have hc : (!(update_external_services (initStage S).1).1.isLeader
          || e.departingIsSelf) = false := by
        rw [hld, hdep']
        rfl
      have hfix := update_quorum_fix (update_external_services (initStage S).1).1 e stE2 hc
      rw [hTlit]
      show (afterQuorum (update_quorum
          { (update_quorum (update_external_services (initStage S).1).1 e).1
            with status := stE2 } e).1 e).1
        = { (update_quorum (update_external_services (initStage S).1).1 e).1
            with status := zb }
      rw [hfix]
      exact hZ
    · have hld' : (update_external_services (initStage S).1).1.isLeader = false := by
        revert hld
        cases (update_external_services (initStage S).1).1.isLeader <;> simp
      have hU'id : (update_quorum (update_external_services (initStage S).1).1 e).1
          = (update_external_services (initStage S).1).1 :=
        update_quorum_fst_notleader _ e hld'
      have hX2l : ({ T with status := st2 } : CharmState).isLeader = false := by
        show T.isLeader = false
        rw [hTlit]
        show (update_quorum (update_external_services (initStage S).1).1 e).1.isLeader = false
        rw [hU'id]
        exact hld'
      have hX2l' : ({ { T with status := st2 } with status := stE2 } : CharmState).isLeader
          = false := hX2l
      rw [update_quorum_fst_notleader _ e hX2l']
      show (afterQuorum { T with status := stE2 } e).1 = T
      rw [afterQuorum_fst_status T stE2 e hdep']
      have hTS2 : T = { (update_external_services (initStage S).1).1 with status := zb } := by
        rw [hTlit, hU'id]
      rw [hTS2]
      rw [afterQuorum_fst_status _ zb e hdep']
      rw [hU'id] at hZ
      exact hZ

/-- With the four early guards passing, the handler reduces to its three-way
endpoint / SAN-mismatch / main-tail branch. -/
lemma handler_main (X : CharmState) (e : Event)
    (hx1 : X.containerCanConnect = true) (hx2 : X.hasPeerRelation = true)
    (hx3 : X.cluster.restoreInProgress = false) (hx4 : X.upgradeIdle = true) :
    (on_cluster_relation_changed X e).1 =
      (if (update_external_services (initStage X).1).1.endpointsKnown = false then
        disconnect_clients (update_external_services (initStage X).1).1
      else if sansMismatch (update_external_services (initStage X).1).1 = true then
        { (update_external_services (initStage X).1).1 with unitServer :=
          { (update_external_services (initStage X).1).1.unitServer with certificate := "" } }
      else
        (afterQuorum (update_quorum
          (update_external_services (initStage X).1).1 e).1 e).1) := by
  unfold on_cluster_relation_changed
  rw [hx1, hx2, hx3, hx4]
  dsimp only
  by_cases hek : (update_external_services (initStage X).1).1.endpointsKnown = true
  · by_cases hsm : sansMismatch (update_external_services (initStage X).1).1 = true
    · rw [hek, hsm]
      rfl
    · have hsm' : sansMismatch (update_external_services (initStage X).1).1 = false := by
        revert hsm
        cases sansMismatch (update_external_services (initStage X).1).1 <;> simp
      rw [hek, hsm']
      rfl
  · have hek' : (update_external_services (initStage X).1).1.endpointsKnown = false := by
      revert hek
      cases (update_external_services (initStage X).1).1.endpointsKnown <;> simp
    rw [hek']
    rfl

/-- C7 (amended): the reconciliation handler `_on_cluster_relation_changed`
is idempotent on the charm state provided the first invocation does not
detect a SAN mismatch (i.e. does not trigger a certificate renewal): with
the collaborator inputs unchanged, running the handler a second time on the
first run's resulting state reproduces that state exactly, including the
final status.  (Unconditionally the claim is false: see the
counterexample, where the first run clears the certificate for renewal and
the second run proceeds to ACTIVE.) -/
theorem c7_amended_idempotent (S : CharmState) (e : Event)
    (hsan : sansMismatch S = false) :
    (on_cluster_relation_changed (on_cluster_relation_changed S e).1 e).1
      = (on_cluster_relation_changed S e).1 := by
  by_cases g1 : S.containerCanConnect = true
  · by_cases g2 : S.hasPeerRelation = true
    · by_cases g3 : S.cluster.restoreInProgress = true
      · have h1 : (on_cluster_relation_changed S e).1 = S := by
          unfold on_cluster_relation_changed
          rw [g1, g2, g3]
          rfl
        rw [h1]
        exact h1
      · have g3' : S.cluster.restoreInProgress = false := by
          revert g3
          cases S.cluster.restoreInProgress <;> simp
        by_cases g4 : S.upgradeIdle = true
        · -- all early guards pass
          obtain ⟨usI, stI, hI⟩ := initStage_shape S
          obtain ⟨stE, hE⟩ := update_external_services_shape (initStage S).1
          have h1 := handler_main S e g1 g2 g3' g4
          have hek : (update_external_services (initStage S).1).1.endpointsKnown
              = S.endpointsKnown := by
            rw [hE, hI]
          by_cases he : S.endpointsKnown = true
          · -- endpoints known: main tail
            have hekP : ¬((update_external_services (initStage S).1).1.endpointsKnown
                = false) := by
              rw [hek, he]
              exact fun h => Bool.noConfusion h
            have hsan2 : sansMismatch (update_external_services (initStage S).1).1
                = false := by
              have hc1 : (update_external_services (initStage S).1).1.unitServer.certificate
                  = S.unitServer.certificate := by
                rw [update_external_services_unitServer]
                exact initStage_certificate S
              have hc2 : (update_external_services (initStage S).1).1.certSans
                  = S.certSans := by
                rw [hE, hI]
              have hc3 : (update_external_services (initStage S).1).1.expectedSans
                  = S.expectedSans := by
                rw [hE, hI]
              rw [sansMismatch_congr _ S hc1 hc2 hc3]
              exact hsan
            have hsmP : ¬(sansMismatch (update_external_services (initStage S).1).1
                = true) := by
              rw [hsan2]
              exact fun h => Bool.noConfusion h
            rw [if_neg hekP, if_neg hsmP] at h1
            rw [h1]
            -- the first run's result, in literal-over-inputs form
            obtain ⟨cU, clsU, stU, hU⟩ :=
              update_quorum_shape (update_external_services (initStage S).1).1 e
            obtain ⟨zb, hZ⟩ :=
              afterQuorum_shape (update_quorum
                (update_external_services (initStage S).1).1 e).1 e
            have hTlit : (afterQuorum (update_quorum
                (update_external_services (initStage S).1).1 e).1 e).1
                = { (update_external_services (initStage S).1).1 with
                    cluster := cU, clients := clsU, status := zb } := by
              rw [hZ, hU]
            -- second-run early guards
            have hTg1 : (afterQuorum (update_quorum
                (update_external_services (initStage S).1).1 e).1 e).1.containerCanConnect
                = true := by
              rw [hTlit, hE, hI]
              exact g1
            have hTg2 : (afterQuorum (update_quorum
                (update_external_services (initStage S).1).1 e).1 e).1.hasPeerRelation
                = true := by
              rw [hTlit, hE, hI]
              exact g2
            have hTg3 : (afterQuorum (update_quorum
                (update_external_services (initStage S).1).1 e).1 e).1.cluster.restoreInProgress
                = false := by
              rw [hZ]
              show (update_quorum (update_external_services
                (initStage S).1).1 e).1.cluster.restoreInProgress = false
              obtain ⟨m, q, sw, hC⟩ :=
                update_quorum_cluster_shape (update_external_services (initStage S).1).1 e
              rw [hC]
              show (update_external_services
                (initStage S).1).1.cluster.restoreInProgress = false
              rw [hE, hI]
              exact g3'
            have hTg4 : (afterQuorum (update_quorum
                (update_external_services (initStage S).1).1 e).1 e).1.upgradeIdle
                = true := by
              rw [hTlit, hE, hI]
              exact g4
            have h2 := handler_main (afterQuorum (update_quorum
              (update_external_services (initStage S).1).1 e).1 e).1 e hTg1 hTg2 hTg3 hTg4
            -- second-run branch conditions
            obtain ⟨us3, st3, hI3⟩ := initStage_shape (afterQuorum (update_quorum
              (update_external_services (initStage S).1).1 e).1 e).1
            obtain ⟨stE3, hE3⟩ := update_external_services_shape
              ((initStage (afterQuorum (update_quorum
                (update_external_services (initStage S).1).1 e).1 e).1).1)
            have hekT : (update_external_services (initStage (afterQuorum (update_quorum
                (update_external_services (initStage S).1).1 e).1 e).1).1).1.endpointsKnown
                = true := by
              rw [hE3, hI3, hTlit, hE, hI]
              exact he
            have hekT' : ¬((update_external_services (initStage (afterQuorum (update_quorum
                (update_external_services (initStage S).1).1 e).1 e).1).1).1.endpointsKnown
                = false) := by
              rw [hekT]
              exact fun h => Bool.noConfusion h
            have hsanT : sansMismatch (update_external_services (initStage
                (afterQuorum (update_quorum
                  (update_external_services (initStage S).1).1 e).1 e).1).1).1
                = false := by
              have hc1 : (update_external_services (initStage (afterQuorum (update_quorum
                  (update_external_services (initStage S).1).1 e).1 e).1).1).1.unitServer.certificate
                  = S.unitServer.certificate := by
                rw [update_external_services_unitServer, initStage_certificate]
                show (afterQuorum (update_quorum
                  (update_external_services (initStage S).1).1 e).1 e).1.unitServer.certificate
                  = S.unitServer.certificate
                rw [hTlit]
                show (update_external_services
                  (initStage S).1).1.unitServer.certificate = S.unitServer.certificate
                rw [update_external_services_unitServer]
                exact initStage_certificate S
              have hc2 : (update_external_services (initStage (afterQuorum (update_quorum
                  (update_external_services (initStage S).1).1 e).1 e).1).1).1.certSans
                  = S.certSans := by
                rw [hE3, hI3, hTlit, hE, hI]
              have hc3 : (update_external_services (initStage (afterQuorum (update_quorum
                  (update_external_services (initStage S).1).1 e).1 e).1).1).1.expectedSans
                  = S.expectedSans := by
                rw [hE3, hI3, hTlit, hE, hI]
              rw [sansMismatch_congr _ S hc1 hc2 hc3]
              exact hsan
            have hsanT' : ¬(sansMismatch (update_external_services (initStage
                (afterQuorum (update_quorum
                  (update_external_services (initStage S).1).1 e).1 e).1).1).1 = true) := by
              rw [hsanT]
              exact fun h => Bool.noConfusion h
            rw [if_neg hekT', if_neg hsanT'] at h2
            rw [h2]
            exact mainTail_idem S _ e rfl
          · -- endpoints unknown: disconnect branch
            have he' : S.endpointsKnown = false := by
              revert he
              cases S.endpointsKnown <;> simp
            have hekP : (update_external_services (initStage S).1).1.endpointsKnown
                = false := by
              rw [hek]
              exact he'
            rw [if_pos hekP] at h1
            rw [h1]
            obtain ⟨clsD, hD⟩ :=
              disconnect_clients_shape (update_external_services (initStage S).1).1
            have hTg1 : (disconnect_clients
                (update_external_services (initStage S).1).1).containerCanConnect
                = true := by
              rw [hD, hE, hI]
              exact g1
            have hTg2 : (disconnect_clients
                (update_external_services (initStage S).1).1).hasPeerRelation = true := by
              rw [hD, hE, hI]
              exact g2
            have hTg3 : (disconnect_clients
                (update_external_services (initStage S).1).1).cluster.restoreInProgress
                = false := by
              rw [hD, hE, hI]
              exact g3'
            have hTg4 : (disconnect_clients
                (update_external_services (initStage S).1).1).upgradeIdle = true := by
              rw [hD, hE, hI]
              exact g4
            have h2 := handler_main (disconnect_clients
              (update_external_services (initStage S).1).1) e hTg1 hTg2 hTg3 hTg4
            obtain ⟨us3, st3, hI3⟩ := initStage_shape (disconnect_clients
              (update_external_services (initStage S).1).1)
            obtain ⟨stE3, hE3⟩ := update_external_services_shape
              ((initStage (disconnect_clients
                (update_external_services (initStage S).1).1)).1)
            have hekT : (update_external_services (initStage (disconnect_clients
                (update_external_services (initStage S).1).1)).1).1.endpointsKnown
                = false := by
              rw [hE3, hI3, hD, hE, hI]
              exact he'
            rw [if_pos hekT] at h2
            rw [h2]
            exact noEndpoints_idem S _ rfl
        · have g4' : S.upgradeIdle = false := by
            revert g4
            cases S.upgradeIdle <;> simp
          have h1 : (on_cluster_relation_changed S e).1 = S := by
            unfold on_cluster_relation_changed
            rw [g1, g2, g3', g4']
            rfl
          rw [h1]
          exact h1
    · have g2' : S.hasPeerRelation = false := by
        revert g2
        cases S.hasPeerRelation <;> simp
      have h1 : (on_cluster_relation_changed S e).1
          = setStatusS Status.noPeerRelation S := by
        unfold on_cluster_relation_changed
        rw [g1, g2']
        rfl
      rw [h1]
      have h2 : (on_cluster_relation_changed (setStatusS Status.noPeerRelation S) e).1
          = setStatusS Status.noPeerRelation (setStatusS Status.noPeerRelation S) := by
        unfold on_cluster_relation_changed
        rw [show (setStatusS Status.noPeerRelation S).containerCanConnect = true from g1,
          show (setStatusS Status.noPeerRelation S).hasPeerRelation = false from g2']
        rfl
      rw [h2]
      rfl
  · have g1' : S.containerCanConnect = false := by
      revert g1
      cases S.containerCanConnect <;> simp
    have h1 : (on_cluster_relation_changed S e).1
        = setStatusS Status.containerNotConnected S := by
      unfold on_cluster_relation_changed
      rw [g1']
      rfl
    rw [h1]
    have h2 : (on_cluster_relation_changed
        (setStatusS Status.containerNotConnected S) e).1
        = setStatusS Status.containerNotConnected
            (setStatusS Status.containerNotConnected S) := by
      unfold on_cluster_relation_changed
      rw [show (setStatusS Status.containerNotConnected S).containerCanConnect
        = false from g1']
      rfl
    rw [h2]
    rfl

/-- Witness for the amended C7 theorem at a concrete state: no SAN mismatch,
and the handler is idempotent there. -/
theorem c7_amended_witness :
    sansMismatch baseState = false ∧
    (on_cluster_relation_changed (on_cluster_relation_changed baseState plainEvent).1
        plainEvent).1
      = (on_cluster_relation_changed baseState plainEvent).1 :=
  ⟨by decide, c7_amended_idempotent baseState plainEvent (by decide)⟩
